import Mathlib

/-! The session controller of `cmd/onionize/gui.go` (onionize GUI).

A shallow embedding of the click handler, `fadeOut`, `fadeIn`,
`updateFileChooser` and the result-listener goroutine of `guiMain`, over an
explicit model of the widgets they read and write.  Every toolkit call is
recorded in a trace together with the execution context that performs it.
-/

namespace Onionize

/-! ## Values exchanged with the engine -/

/-- The fields of `onionize.Parameters` that the click handler fills in. -/
structure Parameters where
  Debug : Bool
  ControlPath : String
  ControlPassword : String
  Pathspec : String
  Zip : Bool
  Slug : Bool
  Passphrase : String
deriving DecidableEq, Repr

/-- A `url.URL` value as received on `linkChan`. -/
structure URL where
  Scheme : String
  Host : String
  Path : String
  RawQuery : String
  Fragment : String
deriving DecidableEq, Repr

/-- Error-correction levels of `rsc.io/qr`. -/
inductive Level
  | L
  | M
  | Q
  | H
deriving DecidableEq, Repr

/-- A `qr.Code` value. -/
structure Code where
  Bitmap : List Nat
  Size : Nat
  Stride : Nat
  Scale : Nat
deriving DecidableEq, Repr

/-- A `gdk.PixbufLoader`: its image type and the bytes written so far. -/
structure PixbufLoader where
  imageType : String
  written : List Nat
deriving DecidableEq, Repr

/-- A `gdk.Pixbuf`. -/
structure Pixbuf where
  pixels : List Nat
deriving DecidableEq, Repr

/-- A `gtk.Image` built from a pixbuf. -/
structure Image where
  pixbuf : Pixbuf
deriving DecidableEq, Repr

/-- Collaborators that live outside `gui.go`: the package-level `debug` flag,
`url.URL.String`, `qr.Encode`, `qr.Code.PNG`, the pixbuf pipeline, and
`fmt.Sprintf` without operands, which the `gtk.MessageDialogNew` binding
applies to its text argument.  Each call that the success callback checks with
`if err != nil` returns an `Except` whose error is the Go error text. -/
structure Env where
  debug : Bool
  Sprintf : String → String
  urlString : URL → String
  qrEncode : String → Level → Except String Code
  codePNG : Code → List Nat
  PixbufLoaderNewWithType : String → Except String PixbufLoader
  pblWrite : PixbufLoader → List Nat → Except String PixbufLoader
  pblGetPixbuf : PixbufLoader → Except String Pixbuf
  ImageNewFromPixbuf : Pixbuf → Except String Image

/-! ## Widgets -/

/-- The `gtk.FileChooserAction` values used by `updateFileChooser`. -/
inductive FileChooserAction
  | OPEN
  | SELECT_FOLDER
deriving DecidableEq, Repr

/-- The object held by the variable `fchooserBtn`.  `gen` tells successive
buttons apart: `updateFileChooser` replaces the button on every mode change.
`filename` is what `GetFilename` returns, `""` while nothing is chosen. -/
structure FileChooserButton where
  gen : Nat
  title : String
  action : FileChooserAction
  filters : List String
  filename : String
  sensitive : Bool
  hexpand : Bool
deriving DecidableEq, Repr

/-- The action control `doBtn`. -/
structure Button where
  label : String
  sensitive : Bool
deriving DecidableEq, Repr

/-- The mode selector `combo`; `active` is the index of the active item. -/
structure ComboBoxText where
  items : List String
  active : Nat
  sensitive : Bool
deriving DecidableEq, Repr

/-- The slug toggle `slugChkBox`. -/
structure CheckButton where
  active : Bool
  sensitive : Bool
deriving DecidableEq, Repr

/-- A `gtk.Entry` (`passphraseEntry`, `urlEntry`): its text, its sensitivity
and the selected region in characters. -/
structure Entry where
  text : String
  sensitive : Bool
  selStart : Nat
  selEnd : Nat
deriving DecidableEq, Repr

/-- An error surface made by `gtk.MessageDialogNew`; `running` is true while
`Run` is waiting for the acknowledgement. -/
structure MessageDialog where
  message : String
  running : Bool
deriving DecidableEq, Repr

/-- Widgets that can be placed in the grid. -/
inductive Widget
  | slugChkBox
  | passphraseEntry
  | combo
  | fchooserBtn (gen : Nat)
  | doBtn
  | urlEntry
  | qrCodeWidget (img : Image)
deriving DecidableEq, Repr

/-- A child of the grid with the cell rectangle it was attached at. -/
structure Child where
  widget : Widget
  left : Int
  top : Int
  width : Int
  height : Int
  visible : Bool
deriving DecidableEq, Repr

/-- The widget state owned by the UI thread. -/
structure Gui where
  slugChkBox : CheckButton
  passphraseEntry : Entry
  combo : ComboBoxText
  fchooserBtn : FileChooserButton
  doBtn : Button
  urlEntry : Entry
  grid : List Child
  dialogs : List MessageDialog
deriving DecidableEq, Repr

/-! ## Trace of toolkit calls -/

/-- The two execution contexts: the GTK main loop and the listener goroutine. -/
inductive Context
  | ui
  | worker
deriving DecidableEq, Repr

/-- The receiver of a recorded call. -/
inductive Target
  | win
  | grid
  | slugChkBox
  | passphraseEntry
  | combo
  | fchooserBtn
  | ffilter
  | doBtn
  | urlEntry
  | errDialog
  | qrCodeWidget
  | pbl
  | glib
  | qr
  | paramsCh
deriving DecidableEq, Repr

/-- Whether a call on this receiver is a call into `gtk`, i.e. touches widget
state.  `glib.IdleAdd`, the pixbuf loader, `qr` and the channel do not. -/
def Target.isWidget : Target → Bool
  | .pbl => false
  | .glib => false
  | .qr => false
  | .paramsCh => false
  | _ => true

/-- One recorded call. -/
structure Call where
  ctx : Context
  target : Target
  method : String
deriving DecidableEq, Repr

/-- The whole program state: widgets, the requests sent on `paramsCh` so far
and the trace of calls. -/
structure World where
  gui : Gui
  paramsCh : List Parameters
  trace : List Call
deriving DecidableEq, Repr

/-- Result of running a handler: it returns, or `log.Fatal` ends the process
in the state reached. -/
inductive Outcome
  | ok (w : World)
  | fatal (msg : String) (w : World)
deriving DecidableEq, Repr

/-- The state in which a handler stopped. -/
def Outcome.world : Outcome → World
  | .ok w => w
  | .fatal _ w => w

/-- Whether the process is still running. -/
def Outcome.isOk : Outcome → Bool
  | .ok _ => true
  | .fatal _ _ => false

/-- Record a call. -/
def World.log (w : World) (c : Context) (t : Target) (m : String) : World :=
  { w with trace := w.trace ++ [⟨c, t, m⟩] }

/-- Go's `len` on a string: its length in bytes. -/
def len (s : String) : Int := (s.utf8ByteSize : Int)

/-! ## Toolkit primitives -/

/-- Models `fchooserBtn.SetSensitive`. -/
def fchooserBtn_SetSensitive (c : Context) (b : Bool) (w : World) : World :=
  { (w.log c .fchooserBtn "SetSensitive") with
    gui := { w.gui with fchooserBtn := { w.gui.fchooserBtn with sensitive := b } } }

/-- Models `doBtn.SetSensitive`. -/
def doBtn_SetSensitive (c : Context) (b : Bool) (w : World) : World :=
  { (w.log c .doBtn "SetSensitive") with
    gui := { w.gui with doBtn := { w.gui.doBtn with sensitive := b } } }

/-- Models `doBtn.SetLabel`. -/
def doBtn_SetLabel (c : Context) (s : String) (w : World) : World :=
  { (w.log c .doBtn "SetLabel") with
    gui := { w.gui with doBtn := { w.gui.doBtn with label := s } } }

/-- Models `combo.SetSensitive`. -/
def combo_SetSensitive (c : Context) (b : Bool) (w : World) : World :=
  { (w.log c .combo "SetSensitive") with
    gui := { w.gui with combo := { w.gui.combo with sensitive := b } } }

/-- Models `slugChkBox.SetSensitive`. -/
def slugChkBox_SetSensitive (c : Context) (b : Bool) (w : World) : World :=
  { (w.log c .slugChkBox "SetSensitive") with
    gui := { w.gui with slugChkBox := { w.gui.slugChkBox with sensitive := b } } }

/-- Models `passphraseEntry.SetSensitive`. -/
def passphraseEntry_SetSensitive (c : Context) (b : Bool) (w : World) : World :=
  { (w.log c .passphraseEntry "SetSensitive") with
    gui := { w.gui with passphraseEntry := { w.gui.passphraseEntry with sensitive := b } } }

/-- Models `grid.ShowAll`: every child of the grid becomes visible. -/
def grid_ShowAll (c : Context) (w : World) : World :=
  { (w.log c .grid "ShowAll") with
    gui := { w.gui with grid := w.gui.grid.map (fun ch => { ch with visible := true }) } }

/-- Models `fchooserBtn.GetFilename`. -/
def fchooserBtn_GetFilename (c : Context) (w : World) : String × World :=
  (w.gui.fchooserBtn.filename, w.log c .fchooserBtn "GetFilename")

/-- Models `passphraseEntry.GetText`.  GTK hands back the entry's own buffer,
never a nil pointer, so the binding's error result is always nil. -/
def passphraseEntry_GetText (c : Context) (w : World) : Except String String × World :=
  (.ok w.gui.passphraseEntry.text, w.log c .passphraseEntry "GetText")

/-- Models `combo.GetActiveText`: the active item, `""` when there is none. -/
def combo_GetActiveText (c : Context) (w : World) : String × World :=
  (w.gui.combo.items.getD w.gui.combo.active "", w.log c .combo "GetActiveText")

/-- Models `slugChkBox.GetActive`. -/
def slugChkBox_GetActive (c : Context) (w : World) : Bool × World :=
  (w.gui.slugChkBox.active, w.log c .slugChkBox "GetActive")

/-- Models `paramsCh <- p`. -/
def paramsCh_send (c : Context) (p : Parameters) (w : World) : World :=
  { (w.log c .paramsCh "send") with paramsCh := w.paramsCh ++ [p] }

/-- The trace receiver of a grid widget. -/
def Widget.target : Widget → Target
  | .slugChkBox => .slugChkBox
  | .passphraseEntry => .passphraseEntry
  | .combo => .combo
  | .fchooserBtn _ => .fchooserBtn
  | .doBtn => .doBtn
  | .urlEntry => .urlEntry
  | .qrCodeWidget _ => .qrCodeWidget

/-- Models `Destroy` on a grid widget: GTK removes it from its container. -/
def widget_Destroy (c : Context) (x : Widget) (w : World) : World :=
  { (w.log c x.target "Destroy") with
    gui := { w.gui with grid := w.gui.grid.filter (fun ch => decide (ch.widget ≠ x)) } }

/-- Whether a widget currently sits in the grid. -/
def Gui.attached (g : Gui) (x : Widget) : Bool :=
  g.grid.any (fun ch => decide (ch.widget = x))

/-- Whether GTK sees a parent on the widget handed to `Attach`.  An image is
attached once, right after `ImageNewFromPixbuf` made it, so it has none. -/
def Gui.hasParent (g : Gui) (x : Widget) : Bool :=
  match x with
  | .qrCodeWidget _ => false
  | _ => g.attached x

/-- Models `grid.Attach(x, left, top, width, height)`.  GTK refuses a widget
that already has a parent; a fresh child is not yet visible. -/
def grid_Attach (c : Context) (x : Widget) (left top width height : Int) (w : World) : World :=
  if w.gui.hasParent x then w.log c .grid "Attach"
  else
    { (w.log c .grid "Attach") with
      gui := { w.gui with grid := ⟨x, left, top, width, height, false⟩ :: w.gui.grid } }

/-- Whether a child covers the cell `(left, top)`. -/
def Child.covers (ch : Child) (left top : Int) : Bool :=
  decide (ch.left ≤ left) && decide (left < ch.left + ch.width) &&
    decide (ch.top ≤ top) && decide (top < ch.top + ch.height)

/-- Models `grid.GetChildAt(left, top)`; `none` is the binding's error. -/
def grid_GetChildAt (c : Context) (left top : Int) (w : World) : Option Widget × World :=
  ((w.gui.grid.find? (fun ch => ch.covers left top)).map Child.widget,
    w.log c .grid "GetChildAt")

/-- Models `urlEntry.SetText`: the text is replaced and the selection collapses
to the start. -/
def urlEntry_SetText (c : Context) (s : String) (w : World) : World :=
  { (w.log c .urlEntry "SetText") with
    gui := { w.gui with urlEntry := { w.gui.urlEntry with text := s, selStart := 0, selEnd := 0 } } }

/-- A position argument of `SelectRegion` as GTK reads it: a negative position
means the end of the text, and positions are clamped to the number of
characters. -/
def clampPos (n : Nat) (p : Int) : Nat :=
  if p < 0 then n else min p.toNat n

/-- Models `urlEntry.SelectRegion(start, end)`. -/
def urlEntry_SelectRegion (c : Context) (start stop : Int) (w : World) : World :=
  { (w.log c .urlEntry "SelectRegion") with
    gui := { w.gui with urlEntry := { w.gui.urlEntry with
      selStart := clampPos w.gui.urlEntry.text.length start,
      selEnd := clampPos w.gui.urlEntry.text.length stop } } }

/-- Models `gtk.FileChooserButtonNew(title, action)`: a fresh, sensitive
button with nothing chosen, stored in the variable `fchooserBtn`. -/
def FileChooserButtonNew (c : Context) (title : String) (action : FileChooserAction)
    (w : World) : World :=
  { (w.log c .fchooserBtn "FileChooserButtonNew") with
    gui := { w.gui with fchooserBtn :=
      { gen := w.gui.fchooserBtn.gen + 1, title := title, action := action, filters := [],
        filename := "", sensitive := true, hexpand := false } } }

/-- Models `gtk.FileFilterNew`, `ffilter.AddPattern(pattern)` and
`fchooserBtn.AddFilter(ffilter)`. -/
def fchooserBtn_AddFilter (c : Context) (pattern : String) (w : World) : World :=
  let w := w.log c .ffilter "FileFilterNew"
  let w := w.log c .ffilter "AddPattern"
  { (w.log c .fchooserBtn "AddFilter") with
    gui := { w.gui with fchooserBtn :=
      { w.gui.fchooserBtn with filters := w.gui.fchooserBtn.filters ++ [pattern] } } }

/-- Models `fchooserBtn.SetHExpand`. -/
def fchooserBtn_SetHExpand (c : Context) (b : Bool) (w : World) : World :=
  { (w.log c .fchooserBtn "SetHExpand") with
    gui := { w.gui with fchooserBtn := { w.gui.fchooserBtn with hexpand := b } } }

/-- Models `win.Resize(1, 1)`: the window is not resizable, only the call is
recorded. -/
def win_Resize (c : Context) (w : World) : World :=
  w.log c .win "Resize"

/-- Models `gtk.MessageDialogNew(win, DIALOG_MODAL, MESSAGE_ERROR,
BUTTONS_CLOSE, format)` called with no further operands: the binding formats
its last argument with `fmt.Sprintf(format)` and the new dialog, not yet
shown, carries the result. -/
def MessageDialogNew (env : Env) (c : Context) (format : String) (w : World) :
    MessageDialog × World :=
  (⟨env.Sprintf format, false⟩,
    { (w.log c .errDialog "MessageDialogNew") with
      gui := { w.gui with dialogs := w.gui.dialogs ++ [⟨env.Sprintf format, false⟩] } })

/-- Models the start of `errDialog.Run()`: the dialog is shown and the call
waits for the response. -/
def errDialog_Run (c : Context) (d : MessageDialog) (w : World) : World :=
  { (w.log c .errDialog "Run") with
    gui := { w.gui with dialogs := (w.gui.dialogs.erase d) ++ [{ d with running := true }] } }

/-- Models `errDialog.Destroy()` after `Run` has returned. -/
def errDialog_Destroy (c : Context) (d : MessageDialog) (w : World) : World :=
  { (w.log c .errDialog "Destroy") with
    gui := { w.gui with dialogs := w.gui.dialogs.erase { d with running := true } } }

/-! ## The closures of `guiMain` -/

/-- The closure `updateFileChooser` (lines 82-115). -/
def updateFileChooser (c : Context) (pathtype : String) (w : World) : World :=
  let w :=
    if pathtype = "directory" then
      FileChooserButtonNew c "Select a path" .SELECT_FOLDER w
    else if pathtype = "file" then
      FileChooserButtonNew c "Select a path" .OPEN w
    else if pathtype = "zip" then
      fchooserBtn_AddFilter c "*.zip" (FileChooserButtonNew c "Select a path" .OPEN w)
    else w
  let w := fchooserBtn_SetHExpand c false w
  let r := grid_GetChildAt c 1 0 w
  let w :=
    match r.1 with
    | some x => widget_Destroy c x r.2
    | none => r.2
  let w := grid_Attach c (.fchooserBtn w.gui.fchooserBtn.gen) 1 0 1 1 w
  let w := grid_ShowAll c w
  win_Resize c w

/-- The handler connected to the combo's `changed` signal (lines 116-119). -/
def comboChanged (c : Context) (w : World) : World :=
  let r := combo_GetActiveText c w
  updateFileChooser c r.1 r.2

/-- The closure `fadeOut` (lines 127-135). -/
def fadeOut (c : Context) (w : World) : World :=
  let w := fchooserBtn_SetSensitive c false w
  let w := doBtn_SetSensitive c false w
  let w := doBtn_SetLabel c "onionizing..." w
  let w := combo_SetSensitive c false w
  let w := slugChkBox_SetSensitive c false w
  let w := passphraseEntry_SetSensitive c false w
  grid_ShowAll c w

/-- The closure `fadeIn` (lines 137-145). -/
def fadeIn (c : Context) (w : World) : World :=
  let w := fchooserBtn_SetSensitive c true w
  let w := doBtn_SetSensitive c true w
  let w := doBtn_SetLabel c "onionize" w
  let w := combo_SetSensitive c true w
  let w := slugChkBox_SetSensitive c true w
  let w := passphraseEntry_SetSensitive c true w
  grid_ShowAll c w

/-- The request built at lines 157-165 from the values read at the click. -/
def mkParameters (env : Env) (path passphrase activeText : String) (slug : Bool) : Parameters :=
  { Debug := env.debug
    ControlPath := "default://"
    ControlPassword := ""
    Pathspec := path
    Zip := decide ("zip" = activeText)
    Slug := slug
    Passphrase := passphrase }

/-- The handler connected to `doBtn`'s `clicked` signal (lines 147-168). -/
def clicked (env : Env) (c : Context) (w : World) : Outcome :=
  let r := fchooserBtn_GetFilename c w
  let path := r.1
  if path = "" then .ok r.2
  else
    let r := passphraseEntry_GetText c r.2
    match r.1 with
    | .error err => .fatal ("Unable to get passphrase: " ++ err) r.2
    | .ok passphrase =>
      let w := fadeOut c r.2
      let a := combo_GetActiveText c w
      let s := slugChkBox_GetActive c a.2
      .ok (paramsCh_send c (mkParameters env path passphrase a.1 s.1) s.2)

/-- The callback that the `linkChan` arm hands to `glib.IdleAdd`
(lines 180-209). -/
def linkCallback (env : Env) (c : Context) (link : URL) (w : World) : Outcome :=
  let linkString := env.urlString link
  let w := urlEntry_SetText c linkString w
  let w := widget_Destroy c .doBtn w
  let w := grid_Attach c .urlEntry 0 2 2 1 w
  let w := urlEntry_SelectRegion c 0 (len linkString) w
  let w := w.log c .qr "Encode"
  match env.qrEncode linkString Level.L with
  | .error err => .fatal err w
  | .ok qrcode =>
    let w := w.log c .pbl "PixbufLoaderNewWithType"
    match env.PixbufLoaderNewWithType "png" with
    | .error err => .fatal ("Failed to create a pixbuf: " ++ err) w
    | .ok pbl =>
      let w := w.log c .pbl "Write"
      match env.pblWrite pbl (env.codePNG qrcode) with
      | .error err => .fatal ("Failed to write to pixbuf: " ++ err) w
      | .ok pbl =>
        let w := w.log c .pbl "GetPixbuf"
        match env.pblGetPixbuf pbl with
        | .error err => .fatal ("Failed to get pixbuf: " ++ err) w
        | .ok qrPixbuf =>
          let w := w.log c .qrCodeWidget "ImageNewFromPixbuf"
          match env.ImageNewFromPixbuf qrPixbuf with
          | .error err => .fatal ("Failed to create qrcode widget: " ++ err) w
          | .ok qrCodeWidget =>
            let w := grid_Attach c (.qrCodeWidget qrCodeWidget) 0 3 2 1 w
            .ok (grid_ShowAll c w)

/-- First half of the callback of the `errChan` arm (line 216): `Run` shows
the dialog and waits. -/
def errCallbackRun (c : Context) (errDialog : MessageDialog) (w : World) : World :=
  errDialog_Run c errDialog w

/-- Second half of that callback (lines 217-218), entered when the user
acknowledges the dialog and `Run` returns. -/
def errCallbackAck (c : Context) (errDialog : MessageDialog) (w : World) : World :=
  let w := errDialog_Destroy c errDialog w
  fadeIn c w

/-- A value received by the listener's `select`. -/
inductive Event
  | link (link : URL)
  | err (err : String)
deriving DecidableEq, Repr

/-- A callback handed to `glib.IdleAdd`, with the values it captures. -/
inductive Callback
  | link (link : URL)
  | err (errDialog : MessageDialog)
deriving DecidableEq, Repr

/-- Models `glib.IdleAdd(f)`: the callback is queued for the main loop.  With
a function literal the binding reports no error. -/
def IdleAdd (c : Context) (f : Callback) (w : World) : Callback × World :=
  (f, w.log c .glib "IdleAdd")

/-- One iteration of the listener goroutine's `for { select { ... } }`
(lines 177-224), run in context `c`: what the loop body does itself, and the
callback it schedules. -/
def listener (env : Env) (c : Context) (ev : Event) (w : World) : Callback × World :=
  match ev with
  | .link link => IdleAdd c (.link link) w
  | .err err =>
    let r := MessageDialogNew env c err w
    IdleAdd c (.err r.1) r.2

/-! ## Driving the program -/

/-- The state when `gtk.Main()` is entered (lines 52-79, 120-122, 169-175,
227-228): the five children attached and shown, `file` mode, slug on, nothing
chosen, `urlEntry` created but not attached. -/
def initGui : Gui :=
  { slugChkBox := { active := true, sensitive := true }
    passphraseEntry := { text := "", sensitive := true, selStart := 0, selEnd := 0 }
    combo := { items := ["file", "directory", "zip"], active := 0, sensitive := true }
    fchooserBtn :=
      { gen := 1, title := "Select a path", action := .OPEN, filters := [], filename := "",
        sensitive := true, hexpand := false }
    doBtn := { label := "onionize", sensitive := true }
    urlEntry := { text := "", sensitive := true, selStart := 0, selEnd := 0 }
    grid :=
      [ ⟨.doBtn, 0, 2, 2, 1, true⟩,
        ⟨.fchooserBtn 1, 1, 0, 1, 1, true⟩,
        ⟨.combo, 0, 0, 1, 1, true⟩,
        ⟨.passphraseEntry, 1, 1, 1, 1, true⟩,
        ⟨.slugChkBox, 0, 1, 1, 1, true⟩ ]
    dialogs := [] }

/-- The initial program state. -/
def init : World := { gui := initGui, paramsCh := [], trace := [] }

/-- Whether GTK delivers user input to a grid widget: it is in the grid,
shown and sensitive, and no modal dialog is running. -/
def Gui.receivesInput (g : Gui) (x : Widget) (sensitive : Bool) : Bool :=
  g.grid.any (fun ch => decide (ch.widget = x) && ch.visible) && sensitive &&
    !(g.dialogs.any (fun d => d.running))

/-- What the user can do with the controls of the window. -/
inductive UserAction
  | click
  | choose (path : String)
  | mode (i : Nat)
  | slug (b : Bool)
  | passphrase (text : String)
  | address (text : String) (selStart selEnd : Nat)
deriving DecidableEq, Repr

/-- The UI thread handling one user action: the widget changes state and the
connected handler, if any, runs.  Input to a widget that does not receive it
is dropped. -/
def userStep (env : Env) (a : UserAction) (w : World) : Outcome :=
  match a with
  | .click =>
    if w.gui.receivesInput .doBtn w.gui.doBtn.sensitive then clicked env .ui w else .ok w
  | .choose path =>
    if w.gui.receivesInput (.fchooserBtn w.gui.fchooserBtn.gen) w.gui.fchooserBtn.sensitive then
      .ok { w with gui := { w.gui with fchooserBtn := { w.gui.fchooserBtn with filename := path } } }
    else .ok w
  | .mode i =>
    if w.gui.receivesInput .combo w.gui.combo.sensitive && decide (i < w.gui.combo.items.length)
        && decide (i ≠ w.gui.combo.active) then
      .ok (comboChanged .ui
        { w with gui := { w.gui with combo := { w.gui.combo with active := i } } })
    else .ok w
  | .slug b =>
    if w.gui.receivesInput .slugChkBox w.gui.slugChkBox.sensitive then
      .ok { w with gui := { w.gui with slugChkBox := { w.gui.slugChkBox with active := b } } }
    else .ok w
  | .passphrase text =>
    if w.gui.receivesInput .passphraseEntry w.gui.passphraseEntry.sensitive then
      .ok { w with gui := { w.gui with passphraseEntry := { w.gui.passphraseEntry with text := text } } }
    else .ok w
  | .address text selStart selEnd =>
    if w.gui.receivesInput .urlEntry w.gui.urlEntry.sensitive then
      .ok { w with gui := { w.gui with urlEntry :=
        { w.gui.urlEntry with text := text, selStart := selStart, selEnd := selEnd } } }
    else .ok w

/-- The main loop running a queued callback to its end; for the error
callback this includes the user's acknowledgement of the dialog. -/
def runCallback (env : Env) (f : Callback) (w : World) : Outcome :=
  match f with
  | .link link => linkCallback env .ui link w
  | .err errDialog => .ok (errCallbackAck .ui errDialog (errCallbackRun .ui errDialog w))

/-- An engine event handled to its end: the listener goroutine receives it and
the main loop then runs the callback it scheduled. -/
def eventStep (env : Env) (ev : Event) (w : World) : Outcome :=
  let r := listener env .worker ev w
  runCallback env r.1 r.2

/-- A step of the whole program. -/
inductive Step
  | user (a : UserAction)
  | event (ev : Event)
deriving DecidableEq, Repr

/-- One step. -/
def step (env : Env) (s : Step) (w : World) : Outcome :=
  match s with
  | .user a => userStep env a w
  | .event ev => eventStep env ev w

/-- A sequence of steps; a fatal error ends the process and the run. -/
def run (env : Env) : List Step → World → Outcome
  | [], w => .ok w
  | s :: rest, w =>
    match step env s w with
    | .ok w1 => run env rest w1
    | .fatal msg w1 => .fatal msg w1

/-- A sequence of user actions. -/
def userRun (env : Env) (acts : List UserAction) (w : World) : Outcome :=
  run env (acts.map Step.user) w

/-! ## The session state of the specification -/

/-- The four session states of the specification. -/
inductive SessionState
  | Idle
  | Publishing
  | Published
  | Failed
deriving DecidableEq, Repr

/-- The session state read off the widgets: `Published` once the action
control has left the grid, `Failed` while an error dialog exists, otherwise
`Idle` or `Publishing` according to whether the action control is enabled. -/
def sessionState (g : Gui) : SessionState :=
  if !g.attached .doBtn then .Published
  else if !g.dialogs.isEmpty then .Failed
  else if g.doBtn.sensitive then .Idle
  else .Publishing

/-- All five input controls and the action control are enabled and the action
label is `onionize`. -/
def Gui.enabled (g : Gui) : Prop :=
  g.fchooserBtn.sensitive = true ∧ g.combo.sensitive = true ∧ g.slugChkBox.sensitive = true ∧
    g.passphraseEntry.sensitive = true ∧ g.doBtn.sensitive = true ∧ g.doBtn.label = "onionize"

/-- All five input controls and the action control are disabled and the action
label is `onionizing...`. -/
def Gui.disabled (g : Gui) : Prop :=
  g.fchooserBtn.sensitive = false ∧ g.combo.sensitive = false ∧ g.slugChkBox.sensitive = false ∧
    g.passphraseEntry.sensitive = false ∧ g.doBtn.sensitive = false ∧
    g.doBtn.label = "onionizing..."

/-! ## A concrete environment -/

/-- The flag characters of a `fmt` verb. -/
def fmtFlag (c : Char) : Bool :=
  c = '#' || c = '0' || c = '+' || c = '-' || c = ' '

/-- Models `parsenum` of package `fmt` run to the end of the format: the
digits at the front are read; the result tells whether a number was read, and
gives the rest of the format.  A number that grows past 1000000 is an overflow:
nothing is read and the whole format is consumed. -/
def fmtParsenum : List Char → Nat → Bool → Bool × List Char
  | [], _, isnum => (isnum, [])
  | c :: cs, num, isnum =>
    if c.isDigit then
      if 1000000 < num then (false, [])
      else fmtParsenum cs (num * 10 + (c.toNat - 48)) true
    else (isnum, c :: cs)

/-- Models `argNumber` of package `fmt` with no operands, at the front of the
format: the rest of the format, whether a well-formed index `[n]` was found,
and whether a bracket was seen at all.  With no operand every index is out of
range, so a bracket always makes the verb a bad-index one. -/
def fmtArgNumber (l : List Char) : List Char × Bool × Bool :=
  match l with
  | '[' :: t =>
    if l.length < 3 then (t, false, true)
    else if t.contains ']' then
      (((t.dropWhile (fun c => c != ']')).drop 1),
        ((fmtParsenum (t.takeWhile (fun c => c != ']')) 0 false).1 &&
          (fmtParsenum (t.takeWhile (fun c => c != ']')) 0 false).2.isEmpty),
        true)
    else (t, false, true)
  | _ => (l, false, false)

/-- The width part of a verb: the text written (`%!(BADWIDTH)` for `*`), the
rest of the format, whether the previous item is still an index, and whether
the verb has become a bad-index one. -/
def fmtWidth (l : List Char) (afterIndex : Bool) : List Char × List Char × Bool × Bool :=
  match l with
  | '*' :: t => ("%!(BADWIDTH)".toList, t, false, false)
  | _ => ([], (fmtParsenum l 0 false).2, afterIndex, afterIndex && (fmtParsenum l 0 false).1)

/-- The precision part of a verb, with the same four results as `fmtWidth`. -/
def fmtPrecision (l : List Char) (afterIndex : Bool) : List Char × List Char × Bool × Bool :=
  match l with
  | '.' :: t =>
    match (fmtArgNumber t).1 with
    | '*' :: u => ("%!(BADPREC)".toList, u, false, afterIndex || (fmtArgNumber t).2.2)
    | r => ([], (fmtParsenum r 0 false).2, (fmtArgNumber t).2.1,
        afterIndex || (fmtArgNumber t).2.2)
  | _ => ([], l, afterIndex, false)

/-- Models one verb of `doPrintf` of package `fmt` with no operands, from the
character after `%`: flags, index, width, precision, index, then the verb
character.  The result is the text written and the rest of the format. -/
def fmtVerb (l : List Char) : List Char × List Char :=
  let a := fmtArgNumber (l.dropWhile fmtFlag)
  let wd := fmtWidth a.1 a.2.1
  let pr := fmtPrecision wd.2.1 wd.2.2.1
  let b := if pr.2.2.1 then (pr.2.1, false, false) else fmtArgNumber pr.2.1
  let bad := a.2.2 || wd.2.2.2 || pr.2.2.2 || b.2.2
  match b.1 with
  | [] => (wd.1 ++ pr.1 ++ "%!(NOVERB)".toList, [])
  | v :: rest =>
    if v = '%' then (wd.1 ++ pr.1 ++ ['%'], rest)
    else if bad then (wd.1 ++ pr.1 ++ "%!".toList ++ [v] ++ "(BADINDEX)".toList, rest)
    else (wd.1 ++ pr.1 ++ "%!".toList ++ [v] ++ "(MISSING)".toList, rest)

/-- Models the loop of `doPrintf` with no operands: text up to the next `%` is
copied, then one verb is handled.  Every round consumes a character, so fuel
equal to the length of the format plus one is never used up. -/
def fmtDoPrintf : Nat → List Char → List Char
  | 0, _ => []
  | fuel + 1, l =>
    match l.dropWhile (fun c => c != '%') with
    | [] => l
    | _ :: t => l.takeWhile (fun c => c != '%') ++ (fmtVerb t).1 ++ fmtDoPrintf fuel (fmtVerb t).2

/-- Models Go's `fmt.Sprintf(format)` with no operands. -/
def fmtSprintf (format : String) : String :=
  String.mk (fmtDoPrintf (format.length + 1) format.toList)

/-- Models `url.URL.String` on the fields kept here, for components that need
no escaping: scheme, `//` and host, path, query and fragment. -/
def urlString (u : URL) : String :=
  let scheme := if u.Scheme = "" then "" else u.Scheme ++ ":"
  let slashes :=
    if (u.Scheme ≠ "" ∨ u.Host ≠ "") ∧ (u.Host ≠ "" ∨ u.Path ≠ "") then "//" else ""
  let host := if u.Scheme ≠ "" ∨ u.Host ≠ "" then u.Host else ""
  let sep := if u.Path ≠ "" ∧ u.Path.toList.head? ≠ some '/' ∧ u.Host ≠ "" then "/" else ""
  let dot :=
    if u.Scheme = "" ∧ u.Host = "" ∧ (u.Path.toList.takeWhile (fun c => c != '/')).contains ':'
    then "./" else ""
  let query := if u.RawQuery = "" then "" else "?" ++ u.RawQuery
  let fragment := if u.Fragment = "" then "" else "#" ++ u.Fragment
  scheme ++ slashes ++ host ++ sep ++ dot ++ u.Path ++ query ++ fragment

/-- The characters of the alphanumeric mode of a QR code. -/
def qrAlpha (c : Char) : Bool :=
  c.isDigit || ('A' ≤ c && c ≤ 'Z') || " $%*+-./:".toList.contains c

/-- The bits `rsc.io/qr` needs for a text at version 40: it takes the numeric
mode for digits only, else the alphanumeric mode, else the byte mode. -/
def qrBits (s : String) : Nat :=
  if s.toList.all Char.isDigit then 4 + 14 + (10 * s.utf8ByteSize + 2) / 3
  else if s.toList.all qrAlpha then 4 + 13 + (11 * s.utf8ByteSize + 1) / 2
  else 4 + 16 + 8 * s.utf8ByteSize

/-- The data bytes of a version 40 QR code at each level. -/
def qrDataBytes : Level → Nat
  | .L => 2956
  | .M => 2334
  | .Q => 1666
  | .H => 1276

/-- A concrete environment.  `Sprintf`, `urlString` and the success or failure
of `qrEncode` follow the Go libraries: a text is refused exactly when it does
not fit the largest code, version 40, at the level asked for (2953 bytes in
byte mode at level `L`).  The matrix, the PNG bytes and the pixbuf are not
computed: a code carries the byte count of its text, and the pixbuf calls pass
the bytes through. -/
def sampleEnv : Env :=
  { debug := false
    Sprintf := fmtSprintf
    urlString := urlString
    qrEncode := fun s l =>
      if qrBits s ≤ qrDataBytes l * 8 then .ok ⟨[s.utf8ByteSize], 0, 0, 0⟩
      else .error "text too long to encode as QR"
    codePNG := fun k => k.Bitmap
    PixbufLoaderNewWithType := fun t => .ok ⟨t, []⟩
    pblWrite := fun l bs => .ok { l with written := l.written ++ bs }
    pblGetPixbuf := fun l => .ok ⟨l.written⟩
    ImageNewFromPixbuf := fun p => .ok ⟨p⟩ }

/-- The initial state after the user has chosen the file `/tmp/f`. -/
def chosen : World :=
  { init with gui := { initGui with fchooserBtn := { initGui.fchooserBtn with filename := "/tmp/f" } } }

/-- The Publishing state reached from `chosen` by the click handler. -/
def publishing : World := (clicked sampleEnv .ui chosen).world

/-- An address that fits a QR code. -/
def shortLink : URL := ⟨"http", "abc123.onion", "", "", ""⟩

/-- The address `http://abc123.onion/aa...a` with `n` letters in the path. -/
def longURL (n : Nat) : URL :=
  ⟨"http", "abc123.onion", String.mk ('/' :: List.replicate n 'a'), "", ""⟩

/-- An address of 2970 bytes, too long for any QR code at level `L`. -/
def longLink : URL := longURL 2950

/-- The calls of a trace that touch widget state from the worker context. -/
def workerWidgetCalls (t : List Call) : List Call :=
  t.filter (fun k => decide (k.ctx = .worker) && k.target.isWidget)

/-- The Code-Image Adapter as the success callback runs it (lines 187-206):
encode at level `L`, load the PNG into a pixbuf, wrap it in an image. -/
def render (env : Env) (s : String) : Except String Image :=
  match env.qrEncode s Level.L with
  | .error err => .error err
  | .ok qrcode =>
    match env.PixbufLoaderNewWithType "png" with
    | .error err => .error err
    | .ok pbl =>
      match env.pblWrite pbl (env.codePNG qrcode) with
      | .error err => .error err
      | .ok pbl =>
        match env.pblGetPixbuf pbl with
        | .error err => .error err
        | .ok qrPixbuf => env.ImageNewFromPixbuf qrPixbuf

/-- Whether a step is an engine event; an event resolves the request that is
outstanding. -/
def Step.resolves : Step → Bool
  | .event _ => true
  | .user _ => false

/-- Single-flight monitor.  `outstanding` tells whether a sent request is
still unresolved.  The result is true when, along the run, the channel only
ever grows, by at most one request per step, and never while a request is
outstanding. -/
def singleFlight (env : Env) : List Step → World → Bool → Bool
  | [], _, _ => true
  | s :: rest, w, outstanding =>
    let o := step env s w
    let sent := o.world.paramsCh.drop w.paramsCh.length
    let fine := w.paramsCh.isPrefixOf o.world.paramsCh &&
      (sent.isEmpty || (decide (sent.length = 1) && !outstanding))
    let outstanding1 := if s.resolves then false else (outstanding || !sent.isEmpty)
    fine &&
      (match o with
       | .ok w1 => singleFlight env rest w1 outstanding1
       | .fatal _ _ => true)

/-! ## States and relations used in the proofs -/

/-- The world after the click handler has run to its end on a non-empty path. -/
def submitted (env : Env) (c : Context) (w : World) : World :=
  { gui := { w.gui with
      fchooserBtn := { w.gui.fchooserBtn with sensitive := false }
      doBtn := { label := "onionizing...", sensitive := false }
      combo := { w.gui.combo with sensitive := false }
      slugChkBox := { w.gui.slugChkBox with sensitive := false }
      passphraseEntry := { w.gui.passphraseEntry with sensitive := false }
      grid := w.gui.grid.map (fun ch => { ch with visible := true }) }
    paramsCh := w.paramsCh ++
      [mkParameters env w.gui.fchooserBtn.filename w.gui.passphraseEntry.text
        (w.gui.combo.items.getD w.gui.combo.active "") w.gui.slugChkBox.active]
    trace := w.trace ++
      [⟨c, .fchooserBtn, "GetFilename"⟩, ⟨c, .passphraseEntry, "GetText"⟩,
       ⟨c, .fchooserBtn, "SetSensitive"⟩, ⟨c, .doBtn, "SetSensitive"⟩, ⟨c, .doBtn, "SetLabel"⟩,
       ⟨c, .combo, "SetSensitive"⟩, ⟨c, .slugChkBox, "SetSensitive"⟩,
       ⟨c, .passphraseEntry, "SetSensitive"⟩, ⟨c, .grid, "ShowAll"⟩,
       ⟨c, .combo, "GetActiveText"⟩, ⟨c, .slugChkBox, "GetActive"⟩, ⟨c, .paramsCh, "send"⟩] }

/-- The gui after lines 181-185 of the success callback: the address text is
set, the action control destroyed, the address field attached and selected. -/
def shownGui (s : String) (g : Gui) : Gui :=
  { g with
    urlEntry := { text := s, sensitive := g.urlEntry.sensitive, selStart := 0, selEnd := s.length }
    grid :=
      if (g.grid.filter (fun ch => decide (ch.widget ≠ Widget.doBtn))).any
          (fun ch => decide (ch.widget = Widget.urlEntry)) then
        g.grid.filter (fun ch => decide (ch.widget ≠ Widget.doBtn))
      else
        ⟨.urlEntry, 0, 2, 2, 1, false⟩ ::
          g.grid.filter (fun ch => decide (ch.widget ≠ Widget.doBtn)) }

/-- The gui at the end of a success callback whose image is `img`. -/
def publishedGui (s : String) (img : Image) (g : Gui) : Gui :=
  { shownGui s g with
    grid := (⟨.qrCodeWidget img, 0, 3, 2, 1, false⟩ :: (shownGui s g).grid).map
      (fun ch => { ch with visible := true }) }

/-- What `updateFileChooser` leaves alone: the channel, the action control,
the other inputs, the address field and the dialogs; and it never puts the
action control into the grid. -/
def Framed (w w1 : World) : Prop :=
  w1.paramsCh = w.paramsCh ∧ w1.gui.doBtn = w.gui.doBtn ∧ w1.gui.combo = w.gui.combo ∧
    w1.gui.slugChkBox = w.gui.slugChkBox ∧ w1.gui.passphraseEntry = w.gui.passphraseEntry ∧
    w1.gui.urlEntry = w.gui.urlEntry ∧ w1.gui.dialogs = w.gui.dialogs ∧
    (w1.gui.attached .doBtn = true → w.gui.attached .doBtn = true)

/-- A step that sends nothing and enables nothing: the channel and the action
control are as before, the sensitivities of the inputs are as before (or the
chooser has been replaced by a fresh, enabled one, which needs an enabled mode
selector), and the action control has not entered the grid. -/
def Quiet (w w1 : World) : Prop :=
  w1.paramsCh = w.paramsCh ∧ w1.gui.doBtn = w.gui.doBtn ∧
    w1.gui.combo.sensitive = w.gui.combo.sensitive ∧
    w1.gui.slugChkBox.sensitive = w.gui.slugChkBox.sensitive ∧
    w1.gui.passphraseEntry.sensitive = w.gui.passphraseEntry.sensitive ∧
    (w1.gui.fchooserBtn.sensitive = w.gui.fchooserBtn.sensitive ∨
      (w.gui.combo.sensitive = true ∧ w1.gui.fchooserBtn.sensitive = true)) ∧
    w1.gui.dialogs = w.gui.dialogs ∧
    (w1.gui.attached .doBtn = true → w.gui.attached .doBtn = true)

/-- The chooser and the mode selector are enabled or disabled together. -/
def Coupled (w : World) : Prop :=
  w.gui.fchooserBtn.sensitive = w.gui.combo.sensitive

/-- What holds of the window whenever the main loop is idle in a run from the
initial state: every child of the grid is shown, the address field is in the
grid only once the action control has left it, the controls are all enabled or
all disabled, and no error dialog is left over. -/
def Settled (w : World) : Prop :=
  (∀ ch ∈ w.gui.grid, ch.visible = true) ∧
    (w.gui.attached .urlEntry = true → w.gui.attached .doBtn = false) ∧
    (w.gui.enabled ∨ w.gui.disabled) ∧ w.gui.dialogs = []

/-! ## Basic facts about the handlers -/

theorem length_le_utf8ByteSize (s : String) : s.length ≤ s.utf8ByteSize := by
  have key : ∀ l : List Char, l.length ≤ String.utf8ByteSize.go l := by
    intro l
    induction l with
    | nil => simp [String.utf8ByteSize.go]
    | cons c cs ih =>
      have hc : 0 < c.utf8Size := Char.utf8Size_pos c
      simp only [String.utf8ByteSize.go, List.length_cons]
      omega
  cases s with
  | mk l => simpa [String.length, String.utf8ByteSize] using key l

theorem clampPos_len (s : String) : clampPos s.length (len s) = s.length := by
  have h := length_le_utf8ByteSize s
  unfold clampPos len
  simp only [Int.toNat_ofNat]
  rw [if_neg (by omega)]
  exact Nat.min_eq_right h

theorem clicked_empty (env : Env) (c : Context) (w : World)
    (h : w.gui.fchooserBtn.filename = "") :
    clicked env c w = .ok (w.log c .fchooserBtn "GetFilename") := by
  simp [clicked, fchooserBtn_GetFilename, h]

theorem clicked_nonempty (env : Env) (c : Context) (w : World)
    (h : w.gui.fchooserBtn.filename ≠ "") :
    clicked env c w = .ok (submitted env c w) := by
  simp [clicked, fchooserBtn_GetFilename, h, passphraseEntry_GetText, fadeOut,
    fchooserBtn_SetSensitive, doBtn_SetSensitive, doBtn_SetLabel, combo_SetSensitive,
    slugChkBox_SetSensitive, passphraseEntry_SetSensitive, grid_ShowAll, combo_GetActiveText,
    slugChkBox_GetActive, paramsCh_send, World.log, submitted]

theorem shown_eq (c : Context) (s : String) (w : World) :
    (urlEntry_SelectRegion c 0 (len s)
      (grid_Attach c .urlEntry 0 2 2 1 (widget_Destroy c .doBtn (urlEntry_SetText c s w)))).gui
      = shownGui s w.gui ∧
    (urlEntry_SelectRegion c 0 (len s)
      (grid_Attach c .urlEntry 0 2 2 1 (widget_Destroy c .doBtn (urlEntry_SetText c s w)))).paramsCh
      = w.paramsCh := by
  have h1 := clampPos_len s
  have h0 : clampPos s.length 0 = 0 := by simp [clampPos]
  simp only [grid_Attach, Gui.hasParent, Gui.attached, widget_Destroy, urlEntry_SetText,
    World.log, shownGui, urlEntry_SelectRegion]
  split_ifs <;> simp [h0, h1]

theorem linkCallback_fatal (env : Env) (c : Context) (link : URL) (w : World) (e : String)
    (h : env.qrEncode (env.urlString link) Level.L = .error e) :
    ∃ w1, linkCallback env c link w = .fatal e w1 ∧
      w1.gui = shownGui (env.urlString link) w.gui ∧ w1.paramsCh = w.paramsCh := by
  obtain ⟨hg, hp⟩ := shown_eq c (env.urlString link) w
  simp only [linkCallback, h]
  refine ⟨_, rfl, ?_, ?_⟩
  · simpa [World.log] using hg
  · simpa [World.log] using hp

theorem linkCallback_ok (env : Env) (c : Context) (link : URL) (w : World) (img : Image)
    (h : render env (env.urlString link) = .ok img) :
    ∃ w1, linkCallback env c link w = .ok w1 ∧
      w1.gui = publishedGui (env.urlString link) img w.gui ∧ w1.paramsCh = w.paramsCh := by
  obtain ⟨hg, hp⟩ := shown_eq c (env.urlString link) w
  unfold render at h
  cases h1 : env.qrEncode (env.urlString link) Level.L with
  | error e => simp [h1] at h
  | ok code =>
    simp only [h1] at h
    cases h2 : env.PixbufLoaderNewWithType "png" with
    | error e => simp [h2] at h
    | ok pbl =>
      simp only [h2] at h
      cases h3 : env.pblWrite pbl (env.codePNG code) with
      | error e => simp [h3] at h
      | ok pbl2 =>
        simp only [h3] at h
        cases h4 : env.pblGetPixbuf pbl2 with
        | error e => simp [h4] at h
        | ok pix =>
          simp only [h4] at h
          simp only [linkCallback, h1, h2, h3, h4, h]
          generalize urlEntry_SelectRegion c 0 _ _ = W at hg hp ⊢
          refine ⟨_, rfl, ?_, ?_⟩
          · simp [grid_ShowAll, grid_Attach, Gui.hasParent, World.log, publishedGui, hg]
          · simp [grid_ShowAll, grid_Attach, Gui.hasParent, World.log, hp]

theorem linkCallback_gui (env : Env) (c : Context) (link : URL) (w : World) :
    (linkCallback env c link w).world.paramsCh = w.paramsCh ∧
    ((linkCallback env c link w).world.gui = shownGui (env.urlString link) w.gui ∨
      ∃ img, (linkCallback env c link w).world.gui = publishedGui (env.urlString link) img w.gui) := by
  obtain ⟨hg, hp⟩ := shown_eq c (env.urlString link) w
  unfold linkCallback
  simp only []
  generalize urlEntry_SelectRegion c 0 _ _ = W at hg hp ⊢
  split
  · exact ⟨by simp [Outcome.world, World.log, hp], Or.inl (by simp [Outcome.world, World.log, hg])⟩
  · split
    · exact ⟨by simp [Outcome.world, World.log, hp],
        Or.inl (by simp [Outcome.world, World.log, hg])⟩
    · split
      · exact ⟨by simp [Outcome.world, World.log, hp],
          Or.inl (by simp [Outcome.world, World.log, hg])⟩
      · split
        · exact ⟨by simp [Outcome.world, World.log, hp],
            Or.inl (by simp [Outcome.world, World.log, hg])⟩
        · split
          · exact ⟨by simp [Outcome.world, World.log, hp],
              Or.inl (by simp [Outcome.world, World.log, hg])⟩
          · rename_i img _
            refine ⟨?_, Or.inr ⟨img, ?_⟩⟩
            · simp [Outcome.world, grid_ShowAll, grid_Attach, Gui.hasParent, World.log, hp]
            · simp [Outcome.world, grid_ShowAll, grid_Attach, Gui.hasParent, World.log,
                publishedGui, hg]

/-! ## Facts about the grid -/

theorem attached_ShowAll (c : Context) (x : Widget) (w : World) :
    (grid_ShowAll c w).gui.attached x = w.gui.attached x := by
  simp [grid_ShowAll, Gui.attached, World.log, List.any_map, Function.comp_def]

theorem attached_Destroy_le (c : Context) (x y : Widget) (w : World)
    (h : (widget_Destroy c y w).gui.attached x = true) : w.gui.attached x = true := by
  simp only [widget_Destroy, Gui.attached, World.log, List.any_eq_true, List.mem_filter] at h ⊢
  obtain ⟨ch, ⟨hm, _⟩, hx⟩ := h
  exact ⟨ch, hm, hx⟩

theorem attached_Attach_ne (c : Context) (x y : Widget) (l t wd ht : Int) (w : World)
    (hxy : y ≠ x) : (grid_Attach c y l t wd ht w).gui.attached x = w.gui.attached x := by
  unfold grid_Attach
  split
  · simp [World.log]
  · simp [World.log, Gui.attached, hxy]

theorem updateFileChooser_framed (c : Context) (pathtype : String) (w : World) :
    Framed w (updateFileChooser c pathtype w) := by
  unfold updateFileChooser
  simp only []
  generalize hw1 : (if pathtype = "directory" then
      FileChooserButtonNew c "Select a path" .SELECT_FOLDER w
    else if pathtype = "file" then
      FileChooserButtonNew c "Select a path" .OPEN w
    else if pathtype = "zip" then
      fchooserBtn_AddFilter c "*.zip" (FileChooserButtonNew c "Select a path" .OPEN w)
    else w) = w1
  have f1 : w1.paramsCh = w.paramsCh ∧ w1.gui.doBtn = w.gui.doBtn ∧ w1.gui.combo = w.gui.combo ∧
      w1.gui.slugChkBox = w.gui.slugChkBox ∧ w1.gui.passphraseEntry = w.gui.passphraseEntry ∧
      w1.gui.urlEntry = w.gui.urlEntry ∧ w1.gui.dialogs = w.gui.dialogs ∧
      w1.gui.grid = w.gui.grid := by
    subst hw1
    split_ifs <;> simp [FileChooserButtonNew, fchooserBtn_AddFilter, World.log]
  obtain ⟨g1, g2, g3, g4, g5, g6, g7, g8⟩ := f1
  generalize hw2 : (match (grid_GetChildAt c 1 0 (fchooserBtn_SetHExpand c false w1)).1 with
    | some x => widget_Destroy c x (grid_GetChildAt c 1 0 (fchooserBtn_SetHExpand c false w1)).2
    | none => (grid_GetChildAt c 1 0 (fchooserBtn_SetHExpand c false w1)).2) = w2
  have f2 : w2.paramsCh = w.paramsCh ∧ w2.gui.doBtn = w.gui.doBtn ∧ w2.gui.combo = w.gui.combo ∧
      w2.gui.slugChkBox = w.gui.slugChkBox ∧ w2.gui.passphraseEntry = w.gui.passphraseEntry ∧
      w2.gui.urlEntry = w.gui.urlEntry ∧ w2.gui.dialogs = w.gui.dialogs ∧
      (w2.gui.attached .doBtn = true → w.gui.attached .doBtn = true) := by
    subst hw2
    split
    · refine ⟨?_, ?_, ?_, ?_, ?_, ?_, ?_, ?_⟩
      · simpa [widget_Destroy, grid_GetChildAt, fchooserBtn_SetHExpand, World.log] using g1
      · simpa [widget_Destroy, grid_GetChildAt, fchooserBtn_SetHExpand, World.log] using g2
      · simpa [widget_Destroy, grid_GetChildAt, fchooserBtn_SetHExpand, World.log] using g3
      · simpa [widget_Destroy, grid_GetChildAt, fchooserBtn_SetHExpand, World.log] using g4
      · simpa [widget_Destroy, grid_GetChildAt, fchooserBtn_SetHExpand, World.log] using g5
      · simpa [widget_Destroy, grid_GetChildAt, fchooserBtn_SetHExpand, World.log] using g6
      · simpa [widget_Destroy, grid_GetChildAt, fchooserBtn_SetHExpand, World.log] using g7
      · intro h
        have h1 := attached_Destroy_le _ _ _ _ h
        simpa [grid_GetChildAt, fchooserBtn_SetHExpand, World.log, Gui.attached, g8] using h1
    · refine ⟨?_, ?_, ?_, ?_, ?_, ?_, ?_, ?_⟩
      · simpa [grid_GetChildAt, fchooserBtn_SetHExpand, World.log] using g1
      · simpa [grid_GetChildAt, fchooserBtn_SetHExpand, World.log] using g2
      · simpa [grid_GetChildAt, fchooserBtn_SetHExpand, World.log] using g3
      · simpa [grid_GetChildAt, fchooserBtn_SetHExpand, World.log] using g4
      · simpa [grid_GetChildAt, fchooserBtn_SetHExpand, World.log] using g5
      · simpa [grid_GetChildAt, fchooserBtn_SetHExpand, World.log] using g6
      · simpa [grid_GetChildAt, fchooserBtn_SetHExpand, World.log] using g7
      · intro h
        simpa [grid_GetChildAt, fchooserBtn_SetHExpand, World.log, Gui.attached, g8] using h
  obtain ⟨k1, k2, k3, k4, k5, k6, k7, k8⟩ := f2
  have ha : (grid_Attach c (.fchooserBtn w2.gui.fchooserBtn.gen) 1 0 1 1 w2).gui.attached .doBtn
      = w2.gui.attached .doBtn := attached_Attach_ne c _ _ _ _ _ _ w2 (by simp)
  refine ⟨?_, ?_, ?_, ?_, ?_, ?_, ?_, ?_⟩
  · unfold grid_Attach; split <;> simp [win_Resize, grid_ShowAll, World.log, k1]
  · unfold grid_Attach; split <;> simp [win_Resize, grid_ShowAll, World.log, k2]
  · unfold grid_Attach; split <;> simp [win_Resize, grid_ShowAll, World.log, k3]
  · unfold grid_Attach; split <;> simp [win_Resize, grid_ShowAll, World.log, k4]
  · unfold grid_Attach; split <;> simp [win_Resize, grid_ShowAll, World.log, k5]
  · unfold grid_Attach; split <;> simp [win_Resize, grid_ShowAll, World.log, k6]
  · unfold grid_Attach; split <;> simp [win_Resize, grid_ShowAll, World.log, k7]
  · intro h
    apply k8
    rw [← ha, ← attached_ShowAll c]
    simpa [win_Resize, World.log] using h

theorem updateFileChooser_sensitive (c : Context) (pathtype : String) (w : World) :
    (updateFileChooser c pathtype w).gui.fchooserBtn.sensitive = w.gui.fchooserBtn.sensitive ∨
      (updateFileChooser c pathtype w).gui.fchooserBtn.sensitive = true := by
  unfold updateFileChooser
  simp only []
  generalize hw1 : (if pathtype = "directory" then
      FileChooserButtonNew c "Select a path" .SELECT_FOLDER w
    else if pathtype = "file" then
      FileChooserButtonNew c "Select a path" .OPEN w
    else if pathtype = "zip" then
      fchooserBtn_AddFilter c "*.zip" (FileChooserButtonNew c "Select a path" .OPEN w)
    else w) = w1
  have f1 : w1.gui.fchooserBtn.sensitive = w.gui.fchooserBtn.sensitive ∨
      w1.gui.fchooserBtn.sensitive = true := by
    subst hw1
    split_ifs <;> simp [FileChooserButtonNew, fchooserBtn_AddFilter, World.log]
  generalize hw2 : (match (grid_GetChildAt c 1 0 (fchooserBtn_SetHExpand c false w1)).1 with
    | some x => widget_Destroy c x (grid_GetChildAt c 1 0 (fchooserBtn_SetHExpand c false w1)).2
    | none => (grid_GetChildAt c 1 0 (fchooserBtn_SetHExpand c false w1)).2) = w2
  have f2 : w2.gui.fchooserBtn.sensitive = w1.gui.fchooserBtn.sensitive := by
    subst hw2
    split <;> simp [widget_Destroy, grid_GetChildAt, fchooserBtn_SetHExpand, World.log]
  have f3 : (win_Resize c (grid_ShowAll c
      (grid_Attach c (.fchooserBtn w2.gui.fchooserBtn.gen) 1 0 1 1 w2))).gui.fchooserBtn.sensitive
      = w2.gui.fchooserBtn.sensitive := by
    unfold grid_Attach; split <;> simp [win_Resize, grid_ShowAll, World.log]
  rw [f3, f2]
  exact f1

/-! ## Facts about the steps -/

theorem Quiet.refl (w : World) : Quiet w w :=
  ⟨rfl, rfl, rfl, rfl, rfl, Or.inl rfl, rfl, id⟩

theorem receivesInput_true (g : Gui) (x : Widget) (b : Bool)
    (h : g.receivesInput x b = true) :
    g.attached x = true ∧ b = true ∧ g.dialogs.any (fun d => d.running) = false := by
  simp only [Gui.receivesInput, Bool.and_eq_true, Bool.not_eq_true', List.any_eq_true,
    decide_eq_true_eq] at h
  obtain ⟨⟨⟨ch, hm, hx, _⟩, hb⟩, hd⟩ := h
  refine ⟨?_, hb, hd⟩
  simp only [Gui.attached, List.any_eq_true, decide_eq_true_eq]
  exact ⟨ch, hm, hx⟩

theorem userStep_send (env : Env) (w : World)
    (h1 : w.gui.receivesInput .doBtn w.gui.doBtn.sensitive = true)
    (h2 : w.gui.fchooserBtn.filename ≠ "") :
    userStep env .click w = .ok (submitted env .ui w) := by
  simp only [userStep, h1, if_true]
  exact clicked_nonempty env .ui w h2

theorem userStep_quiet (env : Env) (a : UserAction) (w : World)
    (h : a = .click → w.gui.receivesInput .doBtn w.gui.doBtn.sensitive = false ∨
      w.gui.fchooserBtn.filename = "") :
    ∃ w1, userStep env a w = .ok w1 ∧ Quiet w w1 := by
  cases a with
  | click =>
    rcases h rfl with h | h
    · exact ⟨w, by simp [userStep, h], Quiet.refl w⟩
    · by_cases hr : w.gui.receivesInput .doBtn w.gui.doBtn.sensitive = true
      · refine ⟨_, by simp only [userStep, hr, if_true]; exact clicked_empty env .ui w h, ?_⟩
        exact ⟨rfl, rfl, rfl, rfl, rfl, Or.inl rfl, rfl, id⟩
      · exact ⟨w, by simp [userStep, hr], Quiet.refl w⟩
  | choose path =>
    simp only [userStep]
    split
    · exact ⟨_, rfl, rfl, rfl, rfl, rfl, rfl, Or.inl rfl, rfl, id⟩
    · exact ⟨w, rfl, Quiet.refl w⟩
  | mode i =>
    simp only [userStep]
    split
    · rename_i hg
      simp only [Bool.and_eq_true, decide_eq_true_eq] at hg
      obtain ⟨⟨hr, _⟩, _⟩ := hg
      obtain ⟨_, hs, _⟩ := receivesInput_true _ _ _ hr
      refine ⟨_, rfl, ?_⟩
      obtain ⟨f1, f2, f3, f4, f5, _, f7, f8⟩ := updateFileChooser_framed .ui
        (combo_GetActiveText .ui
          { w with gui := { w.gui with combo := { w.gui.combo with active := i } } }).1
        (combo_GetActiveText .ui
          { w with gui := { w.gui with combo := { w.gui.combo with active := i } } }).2
      simp only [combo_GetActiveText, World.log] at f1 f2 f3 f4 f5 f7 f8
      have f6 := updateFileChooser_sensitive .ui
        (combo_GetActiveText .ui
          { w with gui := { w.gui with combo := { w.gui.combo with active := i } } }).1
        (combo_GetActiveText .ui
          { w with gui := { w.gui with combo := { w.gui.combo with active := i } } }).2
      simp only [combo_GetActiveText, World.log] at f6
      have g6 : (comboChanged .ui
            { w with gui := { w.gui with combo := { w.gui.combo with active := i } } }
          ).gui.fchooserBtn.sensitive = w.gui.fchooserBtn.sensitive ∨
          (w.gui.combo.sensitive = true ∧ (comboChanged .ui
            { w with gui := { w.gui with combo := { w.gui.combo with active := i } } }
          ).gui.fchooserBtn.sensitive = true) := by
        rcases f6 with f6 | f6
        · exact Or.inl (by simpa [comboChanged, combo_GetActiveText, World.log] using f6)
        · exact Or.inr ⟨hs, by simpa [comboChanged, combo_GetActiveText, World.log] using f6⟩
      refine ⟨?_, ?_, ?_, ?_, ?_, g6, ?_, ?_⟩
      · simpa [comboChanged, combo_GetActiveText, World.log] using f1
      · simpa [comboChanged, combo_GetActiveText, World.log] using f2
      · simp only [comboChanged, combo_GetActiveText, World.log]; rw [f3]
      · simp only [comboChanged, combo_GetActiveText, World.log]; rw [f4]
      · simp only [comboChanged, combo_GetActiveText, World.log]; rw [f5]
      · simpa [comboChanged, combo_GetActiveText, World.log] using f7
      · intro ha
        have := f8 (by simpa [comboChanged, combo_GetActiveText, World.log] using ha)
        simpa [Gui.attached] using this
    · exact ⟨w, rfl, Quiet.refl w⟩
  | slug b =>
    simp only [userStep]
    split
    · exact ⟨_, rfl, rfl, rfl, rfl, rfl, rfl, Or.inl rfl, rfl, id⟩
    · exact ⟨w, rfl, Quiet.refl w⟩
  | passphrase text =>
    simp only [userStep]
    split
    · exact ⟨_, rfl, rfl, rfl, rfl, rfl, rfl, Or.inl rfl, rfl, id⟩
    · exact ⟨w, rfl, Quiet.refl w⟩
  | address text a b =>
    simp only [userStep]
    split
    · exact ⟨_, rfl, rfl, rfl, rfl, rfl, rfl, Or.inl rfl, rfl, id⟩
    · exact ⟨w, rfl, Quiet.refl w⟩

theorem eventStep_paramsCh (env : Env) (ev : Event) (w : World) :
    (eventStep env ev w).world.paramsCh = w.paramsCh := by
  cases ev with
  | link link =>
    simp only [eventStep, listener, IdleAdd, runCallback]
    exact (linkCallback_gui env .ui link (w.log .worker .glib "IdleAdd")).1
  | err err =>
    simp [eventStep, listener, IdleAdd, runCallback, MessageDialogNew, errCallbackAck,
      errCallbackRun, errDialog_Run, errDialog_Destroy, fadeIn, fchooserBtn_SetSensitive,
      doBtn_SetSensitive, doBtn_SetLabel, combo_SetSensitive, slugChkBox_SetSensitive,
      passphraseEntry_SetSensitive, grid_ShowAll, World.log, Outcome.world]

theorem singleFlight_of_guard (env : Env) (steps : List Step) :
    ∀ (w : World) (outstanding : Bool),
      (outstanding = true → w.gui.doBtn.sensitive = false ∨ w.gui.attached .doBtn = false) →
      singleFlight env steps w outstanding = true := by
  induction steps with
  | nil => intro w o _; rfl
  | cons s rest ih =>
    intro w o hinv
    cases s with
    | event ev =>
      have hp := eventStep_paramsCh env ev w
      simp only [singleFlight, step, hp, Step.resolves, if_true, List.drop_length,
        List.isEmpty_nil, Bool.true_or, Bool.and_true, Bool.and_eq_true,
        List.isPrefixOf_iff_prefix]
      refine ⟨List.prefix_refl _, ?_⟩
      split
      · exact ih _ false (by simp)
      · rfl
    | user a =>
      by_cases hs : a = .click ∧ w.gui.receivesInput .doBtn w.gui.doBtn.sensitive = true ∧
          w.gui.fchooserBtn.filename ≠ ""
      · obtain ⟨ha, hr, hf⟩ := hs
        subst ha
        obtain ⟨hatt, hsens, _⟩ := receivesInput_true _ _ _ hr
        have ho : o = false := by
          cases o with
          | false => rfl
          | true =>
            rcases hinv rfl with h | h
            · rw [h] at hsens; cases hsens
            · rw [h] at hatt; cases hatt
        subst ho
        have hstep := userStep_send env w hr hf
        simp only [singleFlight, step, hstep, Outcome.world, submitted, List.drop_left,
          Step.resolves, List.isPrefixOf_iff_prefix, Bool.and_eq_true]
        refine ⟨⟨List.prefix_append _ _, by simp⟩, ?_⟩
        exact ih _ _ (fun _ => Or.inl rfl)
      · have hq : a = .click → w.gui.receivesInput .doBtn w.gui.doBtn.sensitive = false ∨
            w.gui.fchooserBtn.filename = "" := by
          intro ha
          by_cases hr : w.gui.receivesInput .doBtn w.gui.doBtn.sensitive = true
          · by_cases hf : w.gui.fchooserBtn.filename = ""
            · exact Or.inr hf
            · exact absurd ⟨ha, hr, hf⟩ hs
          · exact Or.inl (by simpa using hr)
        obtain ⟨w1, hstep, q1, q2, _, _, _, _, _, q8⟩ := userStep_quiet env a w hq
        simp only [singleFlight, step, hstep, Outcome.world, q1, List.drop_length,
          List.isEmpty_nil, Bool.true_or, Bool.and_true, Bool.and_eq_true,
          List.isPrefixOf_iff_prefix, Step.resolves, Bool.not_true, Bool.or_false]
        refine ⟨List.prefix_refl _, ?_⟩
        apply ih
        intro hout
        rcases hinv hout with h | h
        · exact Or.inl (by rw [q2]; exact h)
        · right
          cases hc : w1.gui.attached .doBtn with
          | false => rfl
          | true => rw [q8 hc] at h; cases h

theorem sessionState_idle (g : Gui) (h : sessionState g = .Idle) :
    g.attached .doBtn = true ∧ g.dialogs = [] ∧ g.doBtn.sensitive = true := by
  unfold sessionState at h
  split_ifs at h with h1 h2 h3
  simp only [Bool.not_eq_true', Bool.not_eq_false] at h1
  refine ⟨h1, ?_, h3⟩
  simpa [List.isEmpty_iff] using h2

theorem attached_map_visible (g : List Child) (x : Widget) :
    (g.map (fun ch => { ch with visible := true })).any (fun ch => decide (ch.widget = x))
      = g.any (fun ch => decide (ch.widget = x)) := by
  simp [List.any_map, Function.comp_def]

/-! ## Further facts about the callbacks and runs -/

theorem linkCallback_isOk (env : Env) (c : Context) (link : URL) (w : World)
    (h : (linkCallback env c link w).isOk = true) :
    ∃ img, render env (env.urlString link) = .ok img := by
  unfold linkCallback at h
  unfold render
  simp only [] at h
  cases h1 : env.qrEncode (env.urlString link) Level.L with
  | error e => simp [h1, Outcome.isOk] at h
  | ok code =>
    simp only [h1] at h ⊢
    cases h2 : env.PixbufLoaderNewWithType "png" with
    | error e => simp [h2, Outcome.isOk] at h
    | ok pbl =>
      simp only [h2] at h ⊢
      cases h3 : env.pblWrite pbl (env.codePNG code) with
      | error e => simp [h3, Outcome.isOk] at h
      | ok pbl2 =>
        simp only [h3] at h ⊢
        cases h4 : env.pblGetPixbuf pbl2 with
        | error e => simp [h4, Outcome.isOk] at h
        | ok pix =>
          simp only [h4] at h ⊢
          cases h5 : env.ImageNewFromPixbuf pix with
          | error e => simp [h5, Outcome.isOk] at h
          | ok img => exact ⟨img, rfl⟩

theorem shownGui_attached (s : String) (g : Gui) :
    (shownGui s g).attached .doBtn = false ∧ (shownGui s g).attached .urlEntry = true := by
  unfold shownGui Gui.attached
  simp only []
  split_ifs with h
  · exact ⟨by simp, h⟩
  · exact ⟨by simp, by simp⟩

theorem publishedGui_attached (s : String) (img : Image) (g : Gui) :
    (publishedGui s img g).attached .doBtn = false ∧
      (publishedGui s img g).attached .urlEntry = true := by
  obtain ⟨h1, h2⟩ := shownGui_attached s g
  simp only [Gui.attached] at h1 h2
  simp only [publishedGui, Gui.attached, attached_map_visible, List.any_cons, h1, h2]
  simp

theorem linkCallback_text (env : Env) (c : Context) (link : URL) (w : World) :
    (linkCallback env c link w).world.gui.urlEntry.text = env.urlString link ∧
    (linkCallback env c link w).world.gui.attached .doBtn = false ∧
    (linkCallback env c link w).world.gui.attached .urlEntry = true := by
  rcases (linkCallback_gui env c link w).2 with h | ⟨img, h⟩
  · rw [h]
    exact ⟨by simp [shownGui], shownGui_attached _ _⟩
  · rw [h]
    exact ⟨by simp [publishedGui, shownGui], publishedGui_attached _ _ _⟩

theorem errCallback_enabled (env : Env) (d : MessageDialog) (w : World) :
    ∃ w1, runCallback env (.err d) w = .ok w1 ∧ w1.gui.enabled ∧ w1.paramsCh = w.paramsCh :=
  ⟨_, rfl, by
    simp [errCallbackAck, errCallbackRun, errDialog_Run, errDialog_Destroy, fadeIn,
      fchooserBtn_SetSensitive, doBtn_SetSensitive, doBtn_SetLabel, combo_SetSensitive,
      slugChkBox_SetSensitive, passphraseEntry_SetSensitive, grid_ShowAll, World.log,
      Gui.enabled], by
    simp [errCallbackAck, errCallbackRun, errDialog_Run, errDialog_Destroy, fadeIn,
      fchooserBtn_SetSensitive, doBtn_SetSensitive, doBtn_SetLabel, combo_SetSensitive,
      slugChkBox_SetSensitive, passphraseEntry_SetSensitive, grid_ShowAll, World.log]⟩

theorem map_visible_id (g : List Child) (h : ∀ ch ∈ g, ch.visible = true) :
    g.map (fun ch => { ch with visible := true }) = g := by
  induction g with
  | nil => rfl
  | cons a t ih =>
    have ha : a.visible = true := h a (List.mem_cons_self _ _)
    have ht := ih (fun ch hc => h ch (List.mem_cons_of_mem _ hc))
    simp only [List.map_cons, ht]
    congr 1
    cases a
    simp only [] at ha
    subst ha
    rfl

theorem userStep_modal (env : Env) (a : UserAction) (w : World)
    (h : w.gui.dialogs.any (fun d => d.running) = true) : userStep env a w = .ok w := by
  cases a <;> simp [userStep, Gui.receivesInput, h]

theorem linkCallback_trace (env : Env) (c : Context) (link : URL) (w : World) :
    ∃ t, (linkCallback env c link w).world.trace =
      w.trace ++ [⟨c, .urlEntry, "SetText"⟩, ⟨c, .doBtn, "Destroy"⟩, ⟨c, .grid, "Attach"⟩,
        ⟨c, .urlEntry, "SelectRegion"⟩, ⟨c, .qr, "Encode"⟩] ++ t ∧ ∀ k ∈ t, k.ctx = c := by
  have h0 : (urlEntry_SelectRegion c 0 (len (env.urlString link))
      (grid_Attach c .urlEntry 0 2 2 1
        (widget_Destroy c .doBtn (urlEntry_SetText c (env.urlString link) w)))).trace =
      w.trace ++ [⟨c, .urlEntry, "SetText"⟩, ⟨c, .doBtn, "Destroy"⟩, ⟨c, .grid, "Attach"⟩,
        ⟨c, .urlEntry, "SelectRegion"⟩] := by
    simp only [grid_Attach]
    split_ifs <;>
      simp [urlEntry_SelectRegion, widget_Destroy, urlEntry_SetText, World.log, Widget.target]
  unfold linkCallback
  simp only []
  generalize urlEntry_SelectRegion c 0 _ _ = W at h0 ⊢
  split
  · exact ⟨[], by simp [Outcome.world, World.log, h0], by simp⟩
  · split
    · exact ⟨[⟨c, .pbl, "PixbufLoaderNewWithType"⟩], by simp [Outcome.world, World.log, h0],
        by simp⟩
    · split
      · exact ⟨[⟨c, .pbl, "PixbufLoaderNewWithType"⟩, ⟨c, .pbl, "Write"⟩],
          by simp [Outcome.world, World.log, h0], by simp⟩
      · split
        · exact ⟨[⟨c, .pbl, "PixbufLoaderNewWithType"⟩, ⟨c, .pbl, "Write"⟩,
            ⟨c, .pbl, "GetPixbuf"⟩], by simp [Outcome.world, World.log, h0], by simp⟩
        · split
          · exact ⟨[⟨c, .pbl, "PixbufLoaderNewWithType"⟩, ⟨c, .pbl, "Write"⟩,
              ⟨c, .pbl, "GetPixbuf"⟩, ⟨c, .qrCodeWidget, "ImageNewFromPixbuf"⟩],
              by simp [Outcome.world, World.log, h0], by simp⟩
          · exact ⟨[⟨c, .pbl, "PixbufLoaderNewWithType"⟩, ⟨c, .pbl, "Write"⟩,
              ⟨c, .pbl, "GetPixbuf"⟩, ⟨c, .qrCodeWidget, "ImageNewFromPixbuf"⟩,
              ⟨c, .grid, "Attach"⟩, ⟨c, .grid, "ShowAll"⟩],
              by simp [Outcome.world, World.log, h0, grid_ShowAll, grid_Attach, Gui.hasParent],
              by simp⟩

theorem workerWidgetCalls_ui (t : List Call) (h : ∀ k ∈ t, k.ctx = .ui) :
    workerWidgetCalls t = [] := by
  simp only [workerWidgetCalls, List.filter_eq_nil_iff, Bool.and_eq_true, decide_eq_true_eq,
    not_and]
  intro k hk hw
  rw [h k hk] at hw
  cases hw

/-- A sequence of quiet steps is quiet. -/
theorem Quiet.trans {w w1 w2 : World} (h1 : Quiet w w1) (h2 : Quiet w1 w2) : Quiet w w2 := by
  obtain ⟨a1, a2, a3, a4, a5, a6, a7, a8⟩ := h1
  obtain ⟨b1, b2, b3, b4, b5, b6, b7, b8⟩ := h2
  refine ⟨b1.trans a1, b2.trans a2, b3.trans a3, b4.trans a4, b5.trans a5, ?_, b7.trans a7,
    fun h => a8 (b8 h)⟩
  rcases b6 with h | ⟨h, h2⟩
  · rcases a6 with k | ⟨k, k2⟩
    · exact Or.inl (h.trans k)
    · exact Or.inr ⟨k, h.trans k2⟩
  · exact Or.inr ⟨a3 ▸ h, h2⟩

theorem userRun_quiet (env : Env) (acts : List UserAction) :
    ∀ w : World, w.gui.attached .doBtn = false →
      ∃ w2, userRun env acts w = .ok w2 ∧ Quiet w w2 := by
  induction acts with
  | nil => intro w _; exact ⟨w, rfl, Quiet.refl w⟩
  | cons a rest ih =>
    intro w h
    have hq : a = .click → w.gui.receivesInput .doBtn w.gui.doBtn.sensitive = false ∨
        w.gui.fchooserBtn.filename = "" := by
      intro _
      left
      cases hc : w.gui.receivesInput .doBtn w.gui.doBtn.sensitive with
      | false => rfl
      | true => rw [(receivesInput_true _ _ _ hc).1] at h; cases h
    obtain ⟨w1, h1, q1⟩ := userStep_quiet env a w hq
    have h1a : w1.gui.attached .doBtn = false := by
      cases hc : w1.gui.attached .doBtn with
      | false => rfl
      | true => rw [q1.2.2.2.2.2.2.2 hc] at h; cases h
    obtain ⟨w2, h2, q2⟩ := ih w1 h1a
    refine ⟨w2, ?_, q1.trans q2⟩
    simp only [userRun, List.map_cons, run, step, h1]
    exact h2

theorem run_snoc (env : Env) (steps : List Step) (s : Step) :
    ∀ (w w1 : World), run env (steps ++ [s]) w = .ok w1 →
      ∃ w0, run env steps w = .ok w0 ∧ step env s w0 = .ok w1 := by
  induction steps with
  | nil =>
    intro w w1 h
    refine ⟨w, rfl, ?_⟩
    simp only [List.nil_append, run] at h
    cases hs : step env s w with
    | ok w2 => simp only [hs] at h; exact h
    | fatal msg w2 => simp [hs] at h
  | cons a rest ih =>
    intro w w1 h
    simp only [List.cons_append, run] at h ⊢
    cases hs : step env a w with
    | ok w2 => simp only [hs] at h ⊢; exact ih w2 w1 h
    | fatal msg w2 => simp [hs] at h

theorem step_coupled (env : Env) (s : Step) (w w1 : World)
    (h : step env s w = .ok w1) (hc : Coupled w) : Coupled w1 := by
  unfold Coupled at hc ⊢
  cases s with
  | event ev =>
    cases ev with
    | link link =>
      simp only [step, eventStep, listener, IdleAdd, runCallback] at h
      have hg := (linkCallback_gui env .ui link (w.log .worker .glib "IdleAdd")).2
      rw [h] at hg
      rcases hg with hg | ⟨img, hg⟩
      · simp only [Outcome.world] at hg
        rw [hg]
        simpa [shownGui, World.log] using hc
      · simp only [Outcome.world] at hg
        rw [hg]
        simpa [publishedGui, shownGui, World.log] using hc
    | err err =>
      simp only [step, eventStep, listener, IdleAdd, runCallback, Outcome.ok.injEq] at h
      subst h
      simp [errCallbackAck, errCallbackRun, errDialog_Run, errDialog_Destroy, fadeIn,
        fchooserBtn_SetSensitive, doBtn_SetSensitive, doBtn_SetLabel, combo_SetSensitive,
        slugChkBox_SetSensitive, passphraseEntry_SetSensitive, grid_ShowAll, World.log,
        MessageDialogNew]
  | user a =>
    simp only [step] at h
    by_cases hs : a = .click ∧ w.gui.receivesInput .doBtn w.gui.doBtn.sensitive = true ∧
        w.gui.fchooserBtn.filename ≠ ""
    · obtain ⟨ha, hr, hf⟩ := hs
      subst ha
      rw [userStep_send env w hr hf, Outcome.ok.injEq] at h
      subst h
      simp [submitted]
    · have hq : a = .click → w.gui.receivesInput .doBtn w.gui.doBtn.sensitive = false ∨
          w.gui.fchooserBtn.filename = "" := by
        intro ha
        by_cases hr : w.gui.receivesInput .doBtn w.gui.doBtn.sensitive = true
        · by_cases hf : w.gui.fchooserBtn.filename = ""
          · exact Or.inr hf
          · exact absurd ⟨ha, hr, hf⟩ hs
        · exact Or.inl (by simpa using hr)
      obtain ⟨w2, hstep, _, _, q3, _, _, q6, _, _⟩ := userStep_quiet env a w hq
      rw [hstep, Outcome.ok.injEq] at h
      subst h
      rcases q6 with k | ⟨k, k2⟩
      · rw [k, q3, hc]
      · rw [k2, q3, k]

theorem run_coupled (env : Env) (steps : List Step) :
    ∀ (w w1 : World), run env steps w = .ok w1 → Coupled w → Coupled w1 := by
  induction steps with
  | nil =>
    intro w w1 h hc
    simp only [run, Outcome.ok.injEq] at h
    subst h
    exact hc
  | cons a rest ih =>
    intro w w1 h hc
    simp only [run] at h
    cases hs : step env a w with
    | ok w2 =>
      simp only [hs] at h
      exact ih w2 w1 h (step_coupled env a w w2 hs hc)
    | fatal msg w2 => simp [hs] at h

theorem updateFileChooser_grid (c : Context) (pathtype : String) (w : World) :
    (∀ ch ∈ (updateFileChooser c pathtype w).gui.grid, ch.visible = true) ∧
    ((updateFileChooser c pathtype w).gui.attached .urlEntry = true →
      w.gui.attached .urlEntry = true) := by
  unfold updateFileChooser
  simp only []
  generalize hw1 : (if pathtype = "directory" then
      FileChooserButtonNew c "Select a path" .SELECT_FOLDER w
    else if pathtype = "file" then
      FileChooserButtonNew c "Select a path" .OPEN w
    else if pathtype = "zip" then
      fchooserBtn_AddFilter c "*.zip" (FileChooserButtonNew c "Select a path" .OPEN w)
    else w) = w1
  have f1 : w1.gui.grid = w.gui.grid := by
    subst hw1
    split_ifs <;> simp [FileChooserButtonNew, fchooserBtn_AddFilter, World.log]
  generalize hw2 : (match (grid_GetChildAt c 1 0 (fchooserBtn_SetHExpand c false w1)).1 with
    | some x => widget_Destroy c x (grid_GetChildAt c 1 0 (fchooserBtn_SetHExpand c false w1)).2
    | none => (grid_GetChildAt c 1 0 (fchooserBtn_SetHExpand c false w1)).2) = w2
  have f2 : w2.gui.attached .urlEntry = true → w.gui.attached .urlEntry = true := by
    subst hw2
    split
    · intro h
      have h1 := attached_Destroy_le _ _ _ _ h
      simpa [grid_GetChildAt, fchooserBtn_SetHExpand, World.log, Gui.attached, f1] using h1
    · intro h
      simpa [grid_GetChildAt, fchooserBtn_SetHExpand, World.log, Gui.attached, f1] using h
  have ha : (grid_Attach c (.fchooserBtn w2.gui.fchooserBtn.gen) 1 0 1 1 w2).gui.attached .urlEntry
      = w2.gui.attached .urlEntry := attached_Attach_ne c _ _ _ _ _ _ w2 (by simp)
  refine ⟨?_, ?_⟩
  · intro ch hch
    simp only [win_Resize, grid_ShowAll, World.log, List.mem_map] at hch
    obtain ⟨ch0, _, rfl⟩ := hch
    rfl
  · intro h
    apply f2
    rw [← ha, ← attached_ShowAll c]
    simpa [win_Resize, World.log] using h

theorem userStep_settled (env : Env) (a : UserAction) (w w1 : World)
    (h : userStep env a w = .ok w1) (hs : Settled w) : Settled w1 := by
  obtain ⟨s1, s2, s3, s4⟩ := hs
  cases a with
  | click =>
    simp only [userStep] at h
    split at h
    · by_cases hf : w.gui.fchooserBtn.filename = ""
      · rw [clicked_empty env .ui w hf, Outcome.ok.injEq] at h
        subst h
        exact ⟨s1, s2, s3, s4⟩
      · rw [clicked_nonempty env .ui w hf, Outcome.ok.injEq] at h
        subst h
        refine ⟨?_, ?_, Or.inr (by simp [submitted, Gui.disabled]), by simpa [submitted] using s4⟩
        · intro ch hch
          simp only [submitted, List.mem_map] at hch
          obtain ⟨ch0, _, rfl⟩ := hch
          rfl
        · simpa [submitted, Gui.attached] using s2
    · rw [Outcome.ok.injEq] at h
      subst h
      exact ⟨s1, s2, s3, s4⟩
  | choose path =>
    simp only [userStep] at h
    split at h <;> (rw [Outcome.ok.injEq] at h; subst h; exact ⟨s1, s2, s3, s4⟩)
  | slug b =>
    simp only [userStep] at h
    split at h <;> (rw [Outcome.ok.injEq] at h; subst h; exact ⟨s1, s2, s3, s4⟩)
  | passphrase text =>
    simp only [userStep] at h
    split at h <;> (rw [Outcome.ok.injEq] at h; subst h; exact ⟨s1, s2, s3, s4⟩)
  | address text x y =>
    simp only [userStep] at h
    split at h <;> (rw [Outcome.ok.injEq] at h; subst h; exact ⟨s1, s2, s3, s4⟩)
  | mode i =>
    simp only [userStep] at h
    split at h
    · rename_i hg
      simp only [Bool.and_eq_true, decide_eq_true_eq] at hg
      obtain ⟨⟨hr, _⟩, _⟩ := hg
      obtain ⟨_, hcs, _⟩ := receivesInput_true _ _ _ hr
      rw [Outcome.ok.injEq] at h
      obtain ⟨_, f2, f3, f4, f5, _, f7, f8⟩ := updateFileChooser_framed .ui
        (combo_GetActiveText .ui
          { w with gui := { w.gui with combo := { w.gui.combo with active := i } } }).1
        (combo_GetActiveText .ui
          { w with gui := { w.gui with combo := { w.gui.combo with active := i } } }).2
      obtain ⟨g1, g2⟩ := updateFileChooser_grid .ui
        (combo_GetActiveText .ui
          { w with gui := { w.gui with combo := { w.gui.combo with active := i } } }).1
        (combo_GetActiveText .ui
          { w with gui := { w.gui with combo := { w.gui.combo with active := i } } }).2
      have f6 := updateFileChooser_sensitive .ui
        (combo_GetActiveText .ui
          { w with gui := { w.gui with combo := { w.gui.combo with active := i } } }).1
        (combo_GetActiveText .ui
          { w with gui := { w.gui with combo := { w.gui.combo with active := i } } }).2
      simp only [comboChanged] at h
      rw [h] at f2 f3 f4 f5 f6 f7 f8 g1 g2
      have f8 : w1.gui.attached .doBtn = true → w.gui.attached .doBtn = true := by
        intro hd
        simpa [Gui.attached, combo_GetActiveText, World.log] using f8 hd
      have g2 : w1.gui.attached .urlEntry = true → w.gui.attached .urlEntry = true := by
        intro hd
        simpa [Gui.attached, combo_GetActiveText, World.log] using g2 hd
      simp only [combo_GetActiveText, World.log] at f2 f3 f4 f5 f6 f7
      have he : w.gui.enabled := by
        rcases s3 with e | d
        · exact e
        · rw [d.2.1] at hcs; cases hcs
      obtain ⟨e1, e2, e3, e4, e5, e6⟩ := he
      refine ⟨g1, ?_, Or.inl ⟨?_, ?_, ?_, ?_, ?_, ?_⟩, ?_⟩
      · intro hu
        have hu0 := s2 (g2 hu)
        cases hd : w1.gui.attached .doBtn with
        | false => rfl
        | true => rw [f8 hd] at hu0; cases hu0
      · rcases f6 with k | k
        · rw [k]; exact e1
        · exact k
      · rw [f3]; exact e2
      · rw [f4]; exact e3
      · rw [f5]; exact e4
      · rw [f2]; exact e5
      · rw [f2]; exact e6
      · rw [f7]; exact s4
    · rw [Outcome.ok.injEq] at h
      subst h
      exact ⟨s1, s2, s3, s4⟩

theorem eventStep_settled (env : Env) (ev : Event) (w w1 : World)
    (h : eventStep env ev w = .ok w1) (hs : Settled w) : Settled w1 := by
  obtain ⟨s1, s2, s3, s4⟩ := hs
  cases ev with
  | link link =>
    simp only [eventStep, listener, IdleAdd, runCallback] at h
    have hok : (linkCallback env .ui link (w.log .worker .glib "IdleAdd")).isOk = true := by
      rw [h]; rfl
    obtain ⟨img, himg⟩ := linkCallback_isOk env .ui link _ hok
    obtain ⟨w2, h2, hg, _⟩ := linkCallback_ok env .ui link (w.log .worker .glib "IdleAdd") img himg
    rw [h, Outcome.ok.injEq] at h2
    subst h2
    obtain ⟨a1, _⟩ := publishedGui_attached (env.urlString link) img
      (w.log .worker .glib "IdleAdd").gui
    refine ⟨?_, ?_, ?_, ?_⟩
    · intro ch hch
      rw [hg] at hch
      simp only [publishedGui, List.mem_map] at hch
      obtain ⟨ch0, _, rfl⟩ := hch
      rfl
    · intro _; rw [hg]; exact a1
    · rw [hg]
      simpa [publishedGui, shownGui, World.log, Gui.enabled, Gui.disabled] using s3
    · rw [hg]
      simpa [publishedGui, shownGui, World.log] using s4
  | err err =>
    simp only [eventStep, listener, IdleAdd, runCallback, Outcome.ok.injEq] at h
    subst h
    refine ⟨?_, ?_, Or.inl ?_, ?_⟩
    · intro ch hch
      simp only [errCallbackAck, errCallbackRun, errDialog_Run, errDialog_Destroy, fadeIn,
        fchooserBtn_SetSensitive, doBtn_SetSensitive, doBtn_SetLabel, combo_SetSensitive,
        slugChkBox_SetSensitive, passphraseEntry_SetSensitive, grid_ShowAll, World.log,
        MessageDialogNew, List.mem_map] at hch
      obtain ⟨ch0, _, rfl⟩ := hch
      rfl
    · simpa [errCallbackAck, errCallbackRun, errDialog_Run, errDialog_Destroy, fadeIn,
        fchooserBtn_SetSensitive, doBtn_SetSensitive, doBtn_SetLabel, combo_SetSensitive,
        slugChkBox_SetSensitive, passphraseEntry_SetSensitive, grid_ShowAll, World.log,
        MessageDialogNew, Gui.attached] using s2
    · simp [errCallbackAck, errCallbackRun, errDialog_Run, errDialog_Destroy, fadeIn,
        fchooserBtn_SetSensitive, doBtn_SetSensitive, doBtn_SetLabel, combo_SetSensitive,
        slugChkBox_SetSensitive, passphraseEntry_SetSensitive, grid_ShowAll, World.log,
        MessageDialogNew, Gui.enabled]
    · simp [errCallbackAck, errCallbackRun, errDialog_Run, errDialog_Destroy, fadeIn,
        fchooserBtn_SetSensitive, doBtn_SetSensitive, doBtn_SetLabel, combo_SetSensitive,
        slugChkBox_SetSensitive, passphraseEntry_SetSensitive, grid_ShowAll, World.log,
        MessageDialogNew, s4]

theorem run_settled (env : Env) (steps : List Step) :
    ∀ (w w1 : World), run env steps w = .ok w1 → Settled w → Settled w1 := by
  induction steps with
  | nil =>
    intro w w1 h hc
    simp only [run, Outcome.ok.injEq] at h
    subst h
    exact hc
  | cons a rest ih =>
    intro w w1 h hc
    simp only [run] at h
    cases hs : step env a w with
    | ok w2 =>
      simp only [hs] at h
      refine ih w2 w1 h ?_
      cases a with
      | user a => exact userStep_settled env a w w2 hs hc
      | event ev => exact eventStep_settled env ev w w2 hs hc
    | fatal msg w2 => simp [hs] at h

theorem init_settled : Settled init := by
  refine ⟨by decide, by decide, Or.inl ?_, rfl⟩
  simp [Gui.enabled, init, initGui]

/-- In a settled Idle state the action control receives clicks, the controls
are enabled and the address field is not in the grid. -/
theorem settled_idle (w : World) (hs : Settled w) (hI : sessionState w.gui = .Idle) :
    w.gui.receivesInput .doBtn w.gui.doBtn.sensitive = true ∧ w.gui.enabled ∧
      w.gui.attached .urlEntry = false := by
  obtain ⟨s1, s2, s3, s4⟩ := hs
  obtain ⟨ha, hd, hb⟩ := sessionState_idle _ hI
  refine ⟨?_, ?_, ?_⟩
  · simp only [Gui.attached, List.any_eq_true, decide_eq_true_eq] at ha
    obtain ⟨ch, hm, hx⟩ := ha
    simp only [Gui.receivesInput, Bool.and_eq_true, List.any_eq_true, decide_eq_true_eq,
      Bool.not_eq_true']
    refine ⟨⟨⟨ch, hm, hx, s1 ch hm⟩, hb⟩, ?_⟩
    rw [hd]; rfl
  · rcases s3 with e | d
    · exact e
    · rw [d.2.2.2.2.1] at hb; cases hb
  · cases hu : w.gui.attached .urlEntry with
    | false => rfl
    | true => rw [s2 hu] at ha; cases ha

theorem utf8Len_replicate_a (n : Nat) : String.utf8Len (List.replicate n 'a') = n := by
  induction n with
  | zero => rfl
  | succ k ih =>
    have h1 : ('a' : Char).utf8Size = 1 := by decide
    simp only [List.replicate_succ, String.utf8Len_cons, ih, h1]

theorem longURL_data (n : Nat) :
    (sampleEnv.urlString (longURL n)).data
      = "http://abc123.onion/".toList ++ List.replicate n 'a' := by
  have h1 : (String.mk ('/' :: List.replicate n 'a') = "") = False := by
    simp [String.ext_iff]
  simp [sampleEnv, urlString, longURL, h1]

theorem longURL_size (n : Nat) : (sampleEnv.urlString (longURL n)).utf8ByteSize = 20 + n := by
  have h := longURL_data n
  have h2 : (sampleEnv.urlString (longURL n)).utf8ByteSize
      = String.utf8Len (sampleEnv.urlString (longURL n)).data := rfl
  rw [h2, h, String.utf8Len_append, utf8Len_replicate_a]
  rfl

theorem longURL_bits (n : Nat) : qrBits (sampleEnv.urlString (longURL n)) = 20 + 8 * (20 + n) := by
  have hs := longURL_size n
  have hl : (sampleEnv.urlString (longURL n)).toList
      = 'h' :: ("ttp://abc123.onion/".toList ++ List.replicate n 'a') := longURL_data n
  have h1 : (sampleEnv.urlString (longURL n)).toList.all Char.isDigit = false := by
    rw [hl, List.all_cons]; rfl
  have h2 : (sampleEnv.urlString (longURL n)).toList.all qrAlpha = false := by
    rw [hl, List.all_cons]; rfl
  unfold qrBits
  rw [h1, h2, hs]
  rfl

theorem sampleEnv_qrEncode (s : String) (l : Level) :
    sampleEnv.qrEncode s l =
      if qrBits s ≤ qrDataBytes l * 8 then .ok ⟨[s.utf8ByteSize], 0, 0, 0⟩
      else .error "text too long to encode as QR" :=
  rfl

theorem longLink_size : (sampleEnv.urlString longLink).utf8ByteSize = 2970 :=
  longURL_size 2950

theorem longLink_refused :
    sampleEnv.qrEncode (sampleEnv.urlString longLink) Level.L
      = .error "text too long to encode as QR" := by
  have hb : qrBits (sampleEnv.urlString longLink) = 23780 := longURL_bits 2950
  rw [sampleEnv_qrEncode, hb, if_neg (by decide)]

/-! ## The claims -/

/-- C1. Single flight: along every sequence of steps from the initial idle
state (clicks and other user input, delivered only to enabled controls, success
events, failure events with their acknowledgement) no request is sent while an
earlier one is unresolved; and after a path is chosen, two clicks in a row send
exactly one request. -/
theorem single_flight (env : Env) (steps : List Step) (path : String) (h : path ≠ "") :
    singleFlight env steps init false = true ∧
    (run env [.user (.choose path), .user .click, .user .click] init).world.paramsCh
      = [mkParameters env path "" "file" true] := by
  refine ⟨singleFlight_of_guard env steps init false (by simp), ?_⟩
  have h1 : userStep env (.choose path) init = .ok
      { init with gui := { initGui with fchooserBtn := { initGui.fchooserBtn with filename := path } } } := by
    simp [userStep, init, initGui, Gui.receivesInput]
  have h2 := userStep_send env
      { init with gui := { initGui with fchooserBtn := { initGui.fchooserBtn with filename := path } } }
      (by simp [init, initGui, Gui.receivesInput]) (by simpa [initGui] using h)
  simp only [run, step, h1, h2]
  simp [userStep, submitted, Gui.receivesInput, Outcome.world, init, initGui]

theorem single_flight_witness :
    "/tmp/f" ≠ "" ∧
    (singleFlight sampleEnv
        [.user (.choose "/tmp/f"), .user .click, .user .click,
         .event (.err "connection refused"), .user .click, .user .click] init false = true ∧
      (run sampleEnv [.user (.choose "/tmp/f"), .user .click, .user .click] init).world.paramsCh
        = [mkParameters sampleEnv "/tmp/f" "" "file" true]) :=
  ⟨by decide, single_flight sampleEnv _ "/tmp/f" (by decide)⟩

/-- C2. With an empty chosen path the click handler returns at once: it sends
nothing, changes no widget, and the session stays Idle, whatever the
passphrase, mode and slug are. -/
theorem submit_empty_path (env : Env) (c : Context) (w : World)
    (hI : sessionState w.gui = .Idle) (h : w.gui.fchooserBtn.filename = "") :
    ∃ w1, clicked env c w = .ok w1 ∧ w1.paramsCh = w.paramsCh ∧ w1.gui = w.gui ∧
      sessionState w1.gui = .Idle ∧ w1.gui.doBtn.label = w.gui.doBtn.label ∧
      w1.gui.doBtn.sensitive = true :=
  ⟨_, clicked_empty env c w h, rfl, rfl, hI, rfl, (sessionState_idle _ hI).2.2⟩

theorem submit_empty_path_witness :
    sessionState init.gui = .Idle ∧ init.gui.fchooserBtn.filename = "" ∧
    ∃ w1, clicked sampleEnv .ui init = .ok w1 ∧ w1.paramsCh = init.paramsCh ∧
      w1.gui = init.gui ∧ sessionState w1.gui = .Idle ∧
      w1.gui.doBtn.label = init.gui.doBtn.label ∧ w1.gui.doBtn.sensitive = true :=
  ⟨by decide, by decide, submit_empty_path sampleEnv .ui init (by decide) (by decide)⟩

/-- C3. With a non-empty chosen path the click handler sends exactly one
request holding the values read at the click (path, zip mode, slug, passphrase,
`default://`, empty control password, the debug flag), and leaves the five
controls disabled with the label `onionizing...`: the session is Publishing. -/
theorem submit_sends_request (env : Env) (c : Context) (w : World)
    (hI : sessionState w.gui = .Idle) (h : w.gui.fchooserBtn.filename ≠ "") :
    ∃ w1, clicked env c w = .ok w1 ∧
      w1.paramsCh = w.paramsCh ++
        [{ Debug := env.debug
           ControlPath := "default://"
           ControlPassword := ""
           Pathspec := w.gui.fchooserBtn.filename
           Zip := decide (w.gui.combo.items.getD w.gui.combo.active "" = "zip")
           Slug := w.gui.slugChkBox.active
           Passphrase := w.gui.passphraseEntry.text }] ∧
      w1.gui.disabled ∧ sessionState w1.gui = .Publishing := by
  obtain ⟨ha, hd, _⟩ := sessionState_idle _ hI
  refine ⟨_, clicked_nonempty env c w h, ?_, ?_, ?_⟩
  · simp [submitted, mkParameters, eq_comm]
  · simp [submitted, Gui.disabled]
  · simp only [Gui.attached, List.any_eq_true, decide_eq_true_eq] at ha
    simp [submitted, sessionState, Gui.attached, ha, hd]

theorem submit_sends_request_witness :
    sessionState chosen.gui = .Idle ∧ chosen.gui.fchooserBtn.filename ≠ "" ∧
    ∃ w1, clicked sampleEnv .ui chosen = .ok w1 ∧
      w1.paramsCh = chosen.paramsCh ++
        [{ Debug := sampleEnv.debug
           ControlPath := "default://"
           ControlPassword := ""
           Pathspec := chosen.gui.fchooserBtn.filename
           Zip := decide (chosen.gui.combo.items.getD chosen.gui.combo.active "" = "zip")
           Slug := chosen.gui.slugChkBox.active
           Passphrase := chosen.gui.passphraseEntry.text }] ∧
      w1.gui.disabled ∧ sessionState w1.gui = .Publishing :=
  ⟨by decide, by decide, submit_sends_request sampleEnv .ui chosen (by decide) (by decide)⟩

/-- C4, the handler as it is. The click handler has no transition guard: on a
non-empty path it never fails, whatever the session state, and disables the
controls and sends one request. A submission outside Idle is prevented by the
toolkit alone: in Publishing or Published state, or while an error dialog is
running, the click is not delivered and changes nothing. -/
theorem submit_unguarded (env : Env) (c : Context) (w : World)
    (h : w.gui.fchooserBtn.filename ≠ "")
    (hs : sessionState w.gui = .Publishing ∨ sessionState w.gui = .Published ∨
      w.gui.dialogs.any (fun d => d.running) = true) :
    (∃ w1, clicked env c w = .ok w1 ∧ w1.gui.disabled ∧
      w1.paramsCh = w.paramsCh ++
        [mkParameters env w.gui.fchooserBtn.filename w.gui.passphraseEntry.text
          (w.gui.combo.items.getD w.gui.combo.active "") w.gui.slugChkBox.active]) ∧
    userStep env .click w = .ok w := by
  refine ⟨⟨_, clicked_nonempty env c w h, by simp [submitted, Gui.disabled], rfl⟩, ?_⟩
  have hr : w.gui.receivesInput .doBtn w.gui.doBtn.sensitive = false := by
    cases hc : w.gui.receivesInput .doBtn w.gui.doBtn.sensitive with
    | false => rfl
    | true =>
      obtain ⟨ha, hb, hd⟩ := receivesInput_true _ _ _ hc
      rcases hs with hs | hs | hs
      · simp [sessionState, ha, hb] at hs
        split_ifs at hs
      · simp [sessionState, ha, hb] at hs
        split_ifs at hs
      · rw [hd] at hs; cases hs
  simp [userStep, hr]

/-- C4, the claim as written fails. In the Publishing state reached from the
initial state by choosing `/tmp/f` and clicking, the handler run again does not
fail: it returns and a second request is on the channel. -/
theorem submit_guard_counterexample :
    sessionState publishing.gui = .Publishing ∧ publishing.paramsCh.length = 1 ∧
    (clicked sampleEnv .ui publishing).isOk = true ∧
    (clicked sampleEnv .ui publishing).world.paramsCh.length = 2 := by
  decide

theorem submit_unguarded_witness :
    publishing.gui.fchooserBtn.filename ≠ "" ∧
    ((∃ w1, clicked sampleEnv .ui publishing = .ok w1 ∧ w1.gui.disabled ∧
      w1.paramsCh = publishing.paramsCh ++
        [mkParameters sampleEnv publishing.gui.fchooserBtn.filename
          publishing.gui.passphraseEntry.text
          (publishing.gui.combo.items.getD publishing.gui.combo.active "")
          publishing.gui.slugChkBox.active]) ∧
    userStep sampleEnv .click publishing = .ok publishing) :=
  ⟨by decide, submit_unguarded sampleEnv .ui publishing (by decide) (Or.inl (by decide))⟩

/-- C5, the callbacks as they are. The listener's callbacks have no transition
guard. In every state the success callback sets the address text, removes the
action control and attaches the address field, and it fails only when the
image cannot be made; in every state the failure callback, once acknowledged,
returns with the five controls enabled and the label `onionize`. -/
theorem resolve_unguarded (env : Env) (w : World) (link : URL) (m : String) :
    ((runCallback env (.link link) w).world.gui.urlEntry.text = env.urlString link ∧
      (runCallback env (.link link) w).world.gui.attached .doBtn = false ∧
      (runCallback env (.link link) w).world.gui.attached .urlEntry = true ∧
      ((runCallback env (.link link) w).isOk = true ↔
        ∃ img, render env (env.urlString link) = .ok img)) ∧
    ∃ w1, runCallback env (.err ⟨m, false⟩) w = .ok w1 ∧ w1.gui.enabled := by
  obtain ⟨t1, t2, t3⟩ := linkCallback_text env .ui link w
  refine ⟨⟨t1, t2, t3, ?_⟩, ?_⟩
  · constructor
    · exact linkCallback_isOk env .ui link w
    · rintro ⟨img, h⟩
      obtain ⟨w1, h1, _⟩ := linkCallback_ok env .ui link w img h
      simp only [runCallback, h1, Outcome.isOk]
  · obtain ⟨w1, h1, h2, _⟩ := errCallback_enabled env ⟨m, false⟩ w
    exact ⟨w1, h1, h2⟩

/-- C5, the claim as written fails. In the initial Idle state the success
callback does not fail: it returns, the action control is gone and the address
field shows the address. -/
theorem resolve_guard_counterexample :
    sessionState init.gui = .Idle ∧ init.gui.attached .doBtn = true ∧
    (runCallback sampleEnv (.link shortLink) init).isOk = true ∧
    (runCallback sampleEnv (.link shortLink) init).world.gui.attached .doBtn = false ∧
    (runCallback sampleEnv (.link shortLink) init).world.gui.urlEntry.text
      = "http://abc123.onion" := by
  decide

/-- C6. Success path: in every Idle state reached from the initial state, a
click with a non-empty path takes the session to Publishing; the success event
for address `link`, when the image can be made, takes it to Published: the
action control is gone, the address field sits in its cell and shows exactly
the string form of `link`, with the whole text selected, and the image is
attached below. -/
theorem success_path (env : Env) (steps : List Step) (w : World) (link : URL) (img : Image)
    (hrun : run env steps init = .ok w)
    (hI : sessionState w.gui = .Idle)
    (hp : w.gui.fchooserBtn.filename ≠ "")
    (hr : render env (env.urlString link) = .ok img) :
    ∃ w1 w2, userStep env .click w = .ok w1 ∧ sessionState w1.gui = .Publishing ∧
      eventStep env (.link link) w1 = .ok w2 ∧ sessionState w2.gui = .Published ∧
      w2.gui.attached .doBtn = false ∧
      ⟨.urlEntry, 0, 2, 2, 1, true⟩ ∈ w2.gui.grid ∧
      w2.gui.urlEntry.text = env.urlString link ∧
      w2.gui.urlEntry.selStart = 0 ∧ w2.gui.urlEntry.selEnd = w2.gui.urlEntry.text.length ∧
      ⟨.qrCodeWidget img, 0, 3, 2, 1, true⟩ ∈ w2.gui.grid ∧
      w2.paramsCh.length = w.paramsCh.length + 1 := by
  obtain ⟨hv, _, hu⟩ := settled_idle w (run_settled env steps init w hrun init_settled) hI
  obtain ⟨ha, hd, _⟩ := sessionState_idle _ hI
  obtain ⟨w2, h2, hg, hch⟩ := linkCallback_ok env .ui link
    ((submitted env .ui w).log .worker .glib "IdleAdd") img hr
  obtain ⟨a1, a2⟩ := publishedGui_attached (env.urlString link) img
    ((submitted env .ui w).log .worker .glib "IdleAdd").gui
  refine ⟨_, w2, userStep_send env w hv hp, ?_, ?_, ?_, ?_, ?_, ?_, ?_, ?_, ?_, ?_⟩
  · simp only [Gui.attached, List.any_eq_true, decide_eq_true_eq] at ha
    simp [submitted, sessionState, Gui.attached, ha, hd]
  · simpa [eventStep, listener, IdleAdd, runCallback] using h2
  · rw [hg]; simp [sessionState, a1]
  · rw [hg]; exact a1
  · rw [hg]
    simp only [Gui.attached, List.any_eq_false, decide_eq_true_eq] at hu
    have hu2 : ¬ ∃ x ∈ w.gui.grid, ¬ x.widget = Widget.doBtn ∧ x.widget = Widget.urlEntry :=
      fun ⟨x, hx, _, hx2⟩ => hu x hx hx2
    simp [publishedGui, shownGui, submitted, World.log, hu2]
  · rw [hg]; simp [publishedGui, shownGui]
  · rw [hg]; simp [publishedGui, shownGui]
  · rw [hg]; simp [publishedGui, shownGui]
  · rw [hg]; simp [publishedGui]
  · rw [hch]; simp [submitted, World.log]

theorem success_path_witness :
    run sampleEnv [.user (.choose "/tmp/f")] init = .ok chosen ∧
    sessionState chosen.gui = .Idle ∧ chosen.gui.fchooserBtn.filename ≠ "" ∧
    render sampleEnv (sampleEnv.urlString shortLink) = .ok ⟨⟨[19]⟩⟩ ∧
    ∃ w1 w2, userStep sampleEnv .click chosen = .ok w1 ∧ sessionState w1.gui = .Publishing ∧
      eventStep sampleEnv (.link shortLink) w1 = .ok w2 ∧ sessionState w2.gui = .Published ∧
      w2.gui.attached .doBtn = false ∧
      ⟨.urlEntry, 0, 2, 2, 1, true⟩ ∈ w2.gui.grid ∧
      w2.gui.urlEntry.text = sampleEnv.urlString shortLink ∧
      w2.gui.urlEntry.selStart = 0 ∧ w2.gui.urlEntry.selEnd = w2.gui.urlEntry.text.length ∧
      ⟨.qrCodeWidget ⟨⟨[19]⟩⟩, 0, 3, 2, 1, true⟩ ∈ w2.gui.grid ∧
      w2.paramsCh.length = chosen.paramsCh.length + 1 :=
  ⟨by decide, by decide, by decide, by rfl,
    success_path sampleEnv [.user (.choose "/tmp/f")] chosen shortLink ⟨⟨[19]⟩⟩ (by decide)
      (by decide) (by decide) (by rfl)⟩

/-- Failure path in general: in every Idle state reached from the initial
state, after a click with a non-empty path a failure event with message `m`
puts up an error dialog showing `Sprintf(m)`; while it runs the controls stay
disabled and no user input is accepted; once it is acknowledged the widgets
are exactly as before the submission: the session is Idle, the five controls
are enabled and the label is `onionize` again. -/
theorem failure_path (env : Env) (steps : List Step) (w : World) (m : String)
    (hrun : run env steps init = .ok w)
    (hI : sessionState w.gui = .Idle)
    (hp : w.gui.fchooserBtn.filename ≠ "") :
    ∃ w1 w2 w3, userStep env .click w = .ok w1 ∧
      (listener env .worker (.err m) w1).1 = .err ⟨env.Sprintf m, false⟩ ∧
      w2 = errCallbackRun .ui ⟨env.Sprintf m, false⟩ (listener env .worker (.err m) w1).2 ∧
      w2.gui.dialogs = [⟨env.Sprintf m, true⟩] ∧ w2.gui.disabled ∧ sessionState w2.gui = .Failed ∧
      (∀ a, userStep env a w2 = .ok w2) ∧
      w3 = errCallbackAck .ui ⟨env.Sprintf m, false⟩ w2 ∧
      eventStep env (.err m) w1 = .ok w3 ∧
      w3.gui = w.gui ∧ sessionState w3.gui = .Idle ∧ w3.gui.enabled ∧
      w3.paramsCh.length = w.paramsCh.length + 1 := by
  have hs := run_settled env steps init w hrun init_settled
  obtain ⟨hv, he, _⟩ := settled_idle w hs hI
  have hvis := hs.1
  obtain ⟨ha, hd, _⟩ := sessionState_idle _ hI
  have hmap := map_visible_id w.gui.grid hvis
  have hdl : (submitted env .ui w).gui.dialogs = [] := by simpa [submitted] using hd
  have hw2 : (errCallbackRun .ui ⟨env.Sprintf m, false⟩
      (listener env .worker (.err m) (submitted env .ui w)).2).gui.dialogs = [⟨env.Sprintf m, true⟩] := by
    simp [errCallbackRun, errDialog_Run, listener, IdleAdd, MessageDialogNew, World.log, hdl]
  have hgui : (errCallbackAck .ui ⟨env.Sprintf m, false⟩ (errCallbackRun .ui ⟨env.Sprintf m, false⟩
      (listener env .worker (.err m) (submitted env .ui w)).2)).gui = w.gui := by
    obtain ⟨h1, h2, h3, h4, h5, h6⟩ := he
    obtain ⟨⟨⟨sa, ss⟩, ⟨pt, ps, p1, p2⟩, ⟨ci, ca, cs⟩, ⟨g, t, ac, fl, fn, fs, fh⟩, ⟨bl, bs⟩,
      url, grid, dialogs⟩, ch, tr⟩ := w
    simp only [] at h1 h2 h3 h4 h5 h6 hd hmap
    subst h1 h2 h3 h4 h5 h6 hd
    simp [errCallbackAck, errCallbackRun, errDialog_Run, errDialog_Destroy, fadeIn,
      fchooserBtn_SetSensitive, doBtn_SetSensitive, doBtn_SetLabel, combo_SetSensitive,
      slugChkBox_SetSensitive, passphraseEntry_SetSensitive, grid_ShowAll, World.log,
      listener, IdleAdd, MessageDialogNew, submitted, hmap]
  refine ⟨_, _, _, userStep_send env w hv hp, rfl, rfl, hw2, ?_, ?_, ?_, rfl, rfl, hgui, ?_, ?_, ?_⟩
  · simp [errCallbackRun, errDialog_Run, listener, IdleAdd, MessageDialogNew, World.log,
      submitted, Gui.disabled]
  · simp only [Gui.attached, List.any_eq_true, decide_eq_true_eq] at ha
    have hatt : (errCallbackRun .ui ⟨env.Sprintf m, false⟩
        (listener env .worker (.err m) (submitted env .ui w)).2).gui.attached .doBtn = true := by
      simp [errCallbackRun, errDialog_Run, listener, IdleAdd, MessageDialogNew, World.log,
        submitted, Gui.attached, ha]
    simp [sessionState, hatt, hw2]
  · intro a
    exact userStep_modal env a _ (by rw [hw2]; rfl)
  · rw [hgui]; exact hI
  · rw [hgui]; exact he
  · simp [errCallbackAck, errCallbackRun, errDialog_Run, errDialog_Destroy, fadeIn,
      fchooserBtn_SetSensitive, doBtn_SetSensitive, doBtn_SetLabel, combo_SetSensitive,
      slugChkBox_SetSensitive, passphraseEntry_SetSensitive, grid_ShowAll, World.log,
      listener, IdleAdd, MessageDialogNew, submitted]

/-- C7, what the code does. The failure arm hands `err.Error()` to
`gtk.MessageDialogNew` as the format, so the dialog shows `Sprintf` of the
message, not the message: after choosing `/tmp/f` and clicking, the failure
event `disk 100% full` puts up a dialog showing `disk 100%!f(MISSING)ull`. The
rest of the failure path holds there: the controls are disabled while the
dialog runs, and after the acknowledgement the widgets are as before the
click. -/
theorem failure_dialog_formatted (env : Env) (w : World) (m : String) :
    (listener env .worker (.err m) w).1 = .err ⟨env.Sprintf m, false⟩ ∧
    (listener env .worker (.err m) w).2.gui.dialogs
      = w.gui.dialogs ++ [⟨env.Sprintf m, false⟩] ∧
    fmtSprintf "disk 100% full" = "disk 100%!f(MISSING)ull" ∧
    fmtSprintf "disk 100% full" ≠ "disk 100% full" ∧
    run sampleEnv [.user (.choose "/tmp/f"), .user .click] init = .ok publishing ∧
    (errCallbackRun .ui ⟨sampleEnv.Sprintf "disk 100% full", false⟩
        (listener sampleEnv .worker (.err "disk 100% full") publishing).2).gui.dialogs
      = [⟨"disk 100%!f(MISSING)ull", true⟩] ∧
    (errCallbackRun .ui ⟨sampleEnv.Sprintf "disk 100% full", false⟩
        (listener sampleEnv .worker (.err "disk 100% full") publishing).2).gui.disabled ∧
    (eventStep sampleEnv (.err "disk 100% full") publishing).isOk = true ∧
    (eventStep sampleEnv (.err "disk 100% full") publishing).world.gui = chosen.gui := by
  refine ⟨rfl, rfl, by decide, by decide, by decide, by decide, ?_, by decide, by decide⟩
  simp [errCallbackRun, errDialog_Run, listener, IdleAdd, MessageDialogNew, World.log,
    publishing, Outcome.world, clicked_nonempty sampleEnv .ui chosen (by decide), submitted,
    Gui.disabled]

/-- C8, what the code does. Handling a failure event, the listener's own loop
body calls `gtk.MessageDialogNew` in the worker context before it schedules
the callback: that call is the one widget call made from the worker, and the
dialog exists before the UI thread runs anything. Handling a success event it
makes no widget call from the worker. -/
theorem listener_dialog_on_worker (env : Env) (w : World) (m : String) (link : URL) :
    workerWidgetCalls (eventStep env (.err m) w).world.trace
      = workerWidgetCalls w.trace ++ [⟨.worker, .errDialog, "MessageDialogNew"⟩] ∧
    (listener env .worker (.err m) w).2.trace
      = w.trace ++ [⟨.worker, .errDialog, "MessageDialogNew"⟩, ⟨.worker, .glib, "IdleAdd"⟩] ∧
    (listener env .worker (.err m) w).2.gui.dialogs
      = w.gui.dialogs ++ [⟨env.Sprintf m, false⟩] ∧
    workerWidgetCalls (eventStep env (.link link) w).world.trace = workerWidgetCalls w.trace := by
  refine ⟨?_, ?_, ?_, ?_⟩
  · simp [eventStep, listener, IdleAdd, runCallback, MessageDialogNew, errCallbackAck,
      errCallbackRun, errDialog_Run, errDialog_Destroy, fadeIn, fchooserBtn_SetSensitive,
      doBtn_SetSensitive, doBtn_SetLabel, combo_SetSensitive, slugChkBox_SetSensitive,
      passphraseEntry_SetSensitive, grid_ShowAll, World.log, Outcome.world, workerWidgetCalls,
      List.filter_append, Target.isWidget]
  · simp [listener, IdleAdd, MessageDialogNew, World.log]
  · simp [listener, IdleAdd, MessageDialogNew, World.log]
  · obtain ⟨t, ht, hui⟩ := linkCallback_trace env .ui link (w.log .worker .glib "IdleAdd")
    simp only [eventStep, listener, IdleAdd, runCallback, ht]
    have := workerWidgetCalls_ui t hui
    simp only [workerWidgetCalls] at this ⊢
    simp only [World.log, List.filter_append, this, List.append_nil]
    simp [Target.isWidget]

/-- C9. Published is terminal: in every run from the initial state, once a
success event has been applied the session is Published, and no later sequence
of user actions sends a request or leaves Published: the action control stays
out of the grid and no input is re-enabled, the sensitivities of the action
control, chooser, mode selector, slug toggle and passphrase field staying as
they were. -/
theorem published_terminal (env : Env) (steps : List Step) (link : URL) (w1 : World)
    (acts : List UserAction)
    (h : run env (steps ++ [.event (.link link)]) init = .ok w1) :
    sessionState w1.gui = .Published ∧
    ∃ w2, userRun env acts w1 = .ok w2 ∧ w2.paramsCh = w1.paramsCh ∧
      sessionState w2.gui = .Published ∧ w2.gui.attached .doBtn = false ∧
      w2.gui.doBtn = w1.gui.doBtn ∧
      w2.gui.fchooserBtn.sensitive = w1.gui.fchooserBtn.sensitive ∧
      w2.gui.combo.sensitive = w1.gui.combo.sensitive ∧
      w2.gui.slugChkBox.sensitive = w1.gui.slugChkBox.sensitive ∧
      w2.gui.passphraseEntry.sensitive = w1.gui.passphraseEntry.sensitive := by
  have hc : Coupled w1 := run_coupled env _ init w1 h rfl
  obtain ⟨w0, _, h0⟩ := run_snoc env steps _ init w1 h
  have ha : w1.gui.attached .doBtn = false := by
    have := (linkCallback_text env .ui link (w0.log .worker .glib "IdleAdd")).2.1
    simp only [step, eventStep, listener, IdleAdd, runCallback] at h0
    rw [h0] at this
    exact this
  obtain ⟨w2, h2, q1, q2, q3, q4, q5, q6, _, q8⟩ := userRun_quiet env acts w1 ha
  have ha2 : w2.gui.attached .doBtn = false := by
    cases hc2 : w2.gui.attached .doBtn with
    | false => rfl
    | true => rw [q8 hc2] at ha; cases ha
  refine ⟨by simp [sessionState, ha], w2, h2, q1, by simp [sessionState, ha2], ha2, q2, ?_, q3,
    q4, q5⟩
  rcases q6 with k | ⟨k, k2⟩
  · exact k
  · rw [k2, hc, k]

theorem published_terminal_witness :
    run sampleEnv ([.user (.choose "/tmp/f"), .user .click] ++ [.event (.link shortLink)]) init
      = .ok (eventStep sampleEnv (.link shortLink) publishing).world ∧
    (sessionState (eventStep sampleEnv (.link shortLink) publishing).world.gui = .Published ∧
    ∃ w2, userRun sampleEnv [.click, .mode 2, .choose "/tmp/g", .click]
        (eventStep sampleEnv (.link shortLink) publishing).world = .ok w2 ∧
      w2.paramsCh = (eventStep sampleEnv (.link shortLink) publishing).world.paramsCh ∧
      sessionState w2.gui = .Published ∧ w2.gui.attached .doBtn = false ∧
      w2.gui.doBtn = (eventStep sampleEnv (.link shortLink) publishing).world.gui.doBtn ∧
      w2.gui.fchooserBtn.sensitive
        = (eventStep sampleEnv (.link shortLink) publishing).world.gui.fchooserBtn.sensitive ∧
      w2.gui.combo.sensitive
        = (eventStep sampleEnv (.link shortLink) publishing).world.gui.combo.sensitive ∧
      w2.gui.slugChkBox.sensitive
        = (eventStep sampleEnv (.link shortLink) publishing).world.gui.slugChkBox.sensitive ∧
      w2.gui.passphraseEntry.sensitive
        = (eventStep sampleEnv (.link shortLink) publishing).world.gui.passphraseEntry.sensitive) :=
  ⟨by decide,
    published_terminal sampleEnv [.user (.choose "/tmp/f"), .user .click] shortLink _ _
      (by decide)⟩

/-- C10, the callback as it is. The success callback sets the address text,
destroys the action control, attaches and selects the address field, and only
then calls the encoder. So when encoding fails the process aborts with those
changes already made; and the callback succeeds exactly when the image can be
made from the string shown in the address field, encoded at level `L`, and
that image is then attached. -/
theorem encode_after_display (env : Env) (c : Context) (link : URL) (w : World) :
    (w.trace ++ [⟨c, .urlEntry, "SetText"⟩, ⟨c, .doBtn, "Destroy"⟩, ⟨c, .grid, "Attach"⟩,
        ⟨c, .urlEntry, "SelectRegion"⟩, ⟨c, .qr, "Encode"⟩])
      <+: (linkCallback env c link w).world.trace ∧
    (linkCallback env c link w).world.gui.urlEntry.text = env.urlString link ∧
    (linkCallback env c link w).world.gui.attached .doBtn = false ∧
    (linkCallback env c link w).world.gui.attached .urlEntry = true ∧
    ((∃ e w1, env.qrEncode (env.urlString link) Level.L = .error e ∧
        linkCallback env c link w = .fatal e w1) ∨
      ∃ code, env.qrEncode (linkCallback env c link w).world.gui.urlEntry.text Level.L
        = .ok code) ∧
    ((linkCallback env c link w).isOk = true ↔
      ∃ img, render env (linkCallback env c link w).world.gui.urlEntry.text = .ok img ∧
        ⟨.qrCodeWidget img, 0, 3, 2, 1, true⟩ ∈ (linkCallback env c link w).world.gui.grid) := by
  obtain ⟨t, ht, _⟩ := linkCallback_trace env c link w
  obtain ⟨t1, t2, t3⟩ := linkCallback_text env c link w
  refine ⟨⟨t, ht.symm⟩, t1, t2, t3, ?_, ?_⟩
  · rw [t1]
    cases h1 : env.qrEncode (env.urlString link) Level.L with
    | error e =>
      obtain ⟨w1, hw1, _⟩ := linkCallback_fatal env c link w e h1
      exact Or.inl ⟨e, w1, rfl, hw1⟩
    | ok code => exact Or.inr ⟨code, rfl⟩
  · rw [t1]
    constructor
    · intro hok
      obtain ⟨img, himg⟩ := linkCallback_isOk env c link w hok
      obtain ⟨w1, hw1, hg, _⟩ := linkCallback_ok env c link w img himg
      refine ⟨img, himg, ?_⟩
      rw [hw1]
      simp [Outcome.world, hg, publishedGui]
    · rintro ⟨img, himg, _⟩
      obtain ⟨w1, hw1, _⟩ := linkCallback_ok env c link w img himg
      simp [hw1, Outcome.isOk]

/-- C10, the claim as written fails. In the Publishing state, a success event
whose address has 2970 bytes, more than a QR code holds at level `L`, aborts
the process with the display already changed: the action control is gone and
the address field is attached and shows the address. -/
theorem encode_failure_counterexample :
    (sampleEnv.urlString longLink).utf8ByteSize = 2970 ∧
    sampleEnv.qrEncode (sampleEnv.urlString longLink) Level.L
      = .error "text too long to encode as QR" ∧
    publishing.gui.attached .doBtn = true ∧ publishing.gui.attached .urlEntry = false ∧
    publishing.gui.urlEntry.text = "" ∧
    (linkCallback sampleEnv .ui longLink publishing).isOk = false ∧
    (linkCallback sampleEnv .ui longLink publishing).world.gui.attached .doBtn = false ∧
    (linkCallback sampleEnv .ui longLink publishing).world.gui.attached .urlEntry = true ∧
    (linkCallback sampleEnv .ui longLink publishing).world.gui.urlEntry.text
      = sampleEnv.urlString longLink := by
  have hsize := longLink_size
  have henc := longLink_refused
  obtain ⟨w1, hw1, _⟩ := linkCallback_fatal sampleEnv .ui longLink publishing _ henc
  obtain ⟨t1, t2, t3⟩ := linkCallback_text sampleEnv .ui longLink publishing
  exact ⟨hsize, henc, by decide, by decide, by decide, by rw [hw1]; rfl, t2, t3, t1⟩

end Onionize
